import Mathlib

/-!
# CameraTango: rendezvous buffer, pose resolver, depth projector, capture loop

A shallow embedding of `app/android/jni/CameraTango.cpp`.

Conventions of the embedding.

* A finite `float` or `double` value is the rational it denotes; a value that is not
  finite (infinite or not a number) is `none`.  The arithmetic of lines 589-591
  rounds after every operation as IEEE 754 does (to nearest, ties to even), the
  quotient and the depth product in `float`, the product and sum with the camera
  model in `double`; the sign of zero is not kept, it changes none of the integers
  the code derives.  A conversion to an integer type that C++ leaves undefined
  yields a value supplied by the platform.
* A producer callback, and one `captureImage` call, are atomic steps on the object
  state; the mutex is not modelled.
* `cv::Mat` is reduced to what the code observes: for the point cloud its row of
  elements, for an image its shape and bytes, for the depth raster its shape and
  cells.
* Code declared outside the shown sources (rtabmap `Transform`, `CameraModel`,
  OpenCV conversions, hole filling, the constants of `util.h`) is a parameter,
  collected in `Platform`.  The Tango service is an oracle, `TangoService`.
* Log statements are dropped.
-/

namespace rtabmap

/-! ## Constants -/

/-- Source line 41: `const int holeSize = 5`. -/
def holeSize : Nat := 5

/-- Source line 42: `const float maxDepthError = 0.10`. -/
def maxDepthError : ℚ := 1 / 10

/-- Source line 43: `const int scanDownsampling = 10`. -/
def scanDownsampling : Nat := 10

/-- Tango SDK: `TANGO_SUCCESS`. -/
def TANGO_SUCCESS : Int := 0

/-- Tango SDK: `TANGO_ERROR`. -/
def TANGO_ERROR : Int := -1

/-- Tango SDK: `TANGO_POSE_VALID`. -/
def TANGO_POSE_VALID : Int := 1

/-- Tango SDK: `TANGO_POSE_INVALID`. -/
def TANGO_POSE_INVALID : Int := 2

/-- Tango SDK: `TANGO_HAL_PIXEL_FORMAT_RGBA_8888`. -/
def TANGO_HAL_PIXEL_FORMAT_RGBA_8888 : Int := 1

/-- Tango SDK: `TANGO_HAL_PIXEL_FORMAT_YV12` (0x32315659). -/
def TANGO_HAL_PIXEL_FORMAT_YV12 : Int := 842094169

/-- Tango SDK: `TANGO_HAL_PIXEL_FORMAT_YCrCb_420_SP` (0x11). -/
def TANGO_HAL_PIXEL_FORMAT_YCrCb_420_SP : Int := 17

/-! ## Data -/

/-- The type `cv::Point3f`. -/
structure Point3f where
  x : ℚ
  y : ℚ
  z : ℚ
deriving DecidableEq

/-- One element of the `CV_32FC4` point cloud: x, y, z and confidence. -/
structure Vec4f where
  x : ℚ
  y : ℚ
  z : ℚ
  c : ℚ
deriving DecidableEq

/-- A 1 x n `CV_32FC4` matrix, as its row of elements; `[]` is the empty matrix. -/
abbrev Cloud := List Vec4f

/-- An 8-bit image matrix: shape and bytes. -/
structure Image where
  rows : Nat
  cols : Nat
  data : List Nat
deriving DecidableEq

/-- The default-constructed `cv::Mat()`. -/
def Image.none : Image := ⟨0, 0, []⟩

/-- The test `cv::Mat::empty()`: no element. -/
def Image.empty (m : Image) : Bool := m.rows * m.cols == 0

/-- A `CV_16UC1` depth matrix: shape and cells, addressed (row, column). -/
structure Raster where
  rows : Nat
  cols : Nat
  cell : Nat → Nat → Nat

/-- The default-constructed `cv::Mat()` as a depth matrix. -/
def Raster.none : Raster := ⟨0, 0, fun _ _ => 0⟩

/-- The matrix `cv::Mat::zeros(rows, cols, CV_16UC1)`. -/
def Raster.zeros (rows cols : Nat) : Raster := ⟨rows, cols, fun _ _ => 0⟩

/-- The test `cv::Mat::empty()` on a depth matrix. -/
def Raster.empty (m : Raster) : Bool := m.rows * m.cols == 0

/-- Assignment through `depth.at<unsigned short>(row, col)`. -/
def Raster.write (m : Raster) (row col v : Nat) : Raster :=
  { m with cell := fun r c => if r = row ∧ c = col then v else m.cell r c }

/-- Tango SDK: the fields of `TangoPoseData` the code reads. -/
structure TangoPoseData where
  translation : ℚ × ℚ × ℚ
  orientation : ℚ × ℚ × ℚ × ℚ
  status_code : Int
deriving DecidableEq

/-- Tango SDK: the fields of `TangoCameraIntrinsics` the code reads. -/
structure TangoCameraIntrinsics where
  fx : ℚ
  fy : ℚ
  cx : ℚ
  cy : ℚ
  width : Nat
  height : Nat
deriving DecidableEq

/-- The conversion codes passed to `cv::cvtColor`. -/
inductive ColorConversion where
  | CV_RGBA2BGR
  | CV_YUV2BGR_YV12
  | CV_YUV2BGR_NV21
deriving DecidableEq

/-- The library code used by `CameraTango.cpp` and declared outside the shown sources,
taken as parameters: rtabmap `Transform` with its null sentinel, composition and
norm, `util3d::transformPoint`, the OpenCV and `util2d` image routines, and the
fixed convention transforms of `util.h`; and what the hardware yields where C++
leaves a conversion undefined.  The one law assumed is that the default-constructed
transform is the null sentinel. -/
structure Platform where
  /-- The type `rtabmap::Transform`. -/
  Transform : Type
  /-- The value `Transform()`, also the result of `setNull()`. -/
  null : Transform
  /-- The test `Transform::isNull()`. -/
  isNull : Transform → Bool
  /-- The default-constructed transform is null. -/
  isNull_null : isNull null = true
  /-- The value `Transform::getNormSquared()`. -/
  getNormSquared : Transform → ℚ
  /-- The product `Transform::operator*`. -/
  mul : Transform → Transform → Transform
  /-- The value `Transform::inverse()`. -/
  inverse : Transform → Transform
  /-- The constructor `Transform(x, y, z, qx, qy, qz, qw)`. -/
  ofPose : ℚ × ℚ × ℚ → ℚ × ℚ × ℚ × ℚ → Transform
  /-- The function `util3d::transformPoint`. -/
  transformPoint : Point3f → Transform → Point3f
  /-- The function `cv::cvtColor`. -/
  cvtColor : Image → ColorConversion → Image
  /-- The function `util2d::decimate`. -/
  decimate : Image → Nat → Image
  /-- The function `util2d::fillDepthHoles`. -/
  fillDepthHoles : Raster → Nat → ℚ → Raster
  /-- The constant `rtabmap_world_T_tango_world` of `util.h`. -/
  rtabmap_world_T_tango_world : Transform
  /-- The constant `tango_device_T_rtabmap_device` of `util.h`. -/
  tango_device_T_rtabmap_device : Transform
  /-- What `static_cast<int>` yields at lines 589-590 where C++ leaves it undefined (the
  value is not finite or its truncation is outside `int`), for the focal length,
  the principal point, the coordinate and the depth of the expression. -/
  undefinedInt : ℚ → ℚ → ℚ → ℚ → Int
  /-- What the conversion to `unsigned short` yields at line 591 where C++ leaves it
  undefined (the truncated product is outside 0 .. 65535), for the depth. -/
  undefinedUShort : ℚ → Nat

/-- Modelled from the spec: `CameraModel` (declared outside the shown sources) is
"focal lengths, principal point, resolution, a fixed local (body-to-optical)
transform". -/
structure CameraModel (P : Platform) where
  fx : ℚ
  fy : ℚ
  cx : ℚ
  cy : ℚ
  imageWidth : Nat
  imageHeight : Nat
  localTransform : P.Transform

/-- Truncation toward zero, as a conversion from floating point to an integer type
does. -/
def toInt (q : ℚ) : Int := Int.tdiv q.num q.den

/-! ### Floating point -/

/-- The ratio N / D rounded to the nearest integer, ties to the even one. -/
def roundNearestEven (N D : Nat) : Nat :=
  if 2 * (N % D) < D then N / D
  else if D < 2 * (N % D) then N / D + 1
  else if (N / D) % 2 = 0 then N / D else N / D + 1

/-- A binary floating-point format: the bits of precision and the range of the
exponent of the last place. -/
structure FloatFormat where
  prec : Nat
  emin : Int
  emax : Int

/-- The type `float` (IEEE 754 binary32). -/
def binary32 : FloatFormat := ⟨24, -149, 104⟩

/-- The type `double` (IEEE 754 binary64). -/
def binary64 : FloatFormat := ⟨53, -1074, 971⟩

/-- Binary logarithm rounded down, 0 for 0, by halving at most `fuel` times. -/
def log2Fuel : Nat → Nat → Nat
  | 0, _ => 0
  | fuel + 1, n => if n < 2 then 0 else log2Fuel fuel (n / 2) + 1

/-- Binary logarithm rounded down, 0 for 0. -/
def flog2 (n : Nat) : Nat := log2Fuel n n

/-- Binary logarithm of n / d rounded down, for positive n and d. -/
def ilog2 (n d : Nat) : Int :=
  if d * 2 ^ ((flog2 n : Int) - (flog2 d : Int)).toNat ≤
      n * 2 ^ ((flog2 d : Int) - (flog2 n : Int)).toNat then
    (flog2 n : Int) - (flog2 d : Int)
  else (flog2 n : Int) - (flog2 d : Int) - 1

/-- The exponent of the last place of the format at a non-zero value. -/
def FloatFormat.ulpExp (f : FloatFormat) (q : ℚ) : Int :=
  max f.emin (ilog2 q.num.natAbs q.den - ((f.prec : Int) - 1))

/-- The magnitude of a non-zero value in units of the last place, rounded. -/
def FloatFormat.mant (f : FloatFormat) (q : ℚ) : Nat :=
  roundNearestEven (q.num.natAbs * 2 ^ (-(f.ulpExp q)).toNat) (q.den * 2 ^ (f.ulpExp q).toNat)

/-- The exact result of an operation rounded into the format, to nearest with ties to
even; `none` when the rounded result is infinite. -/
def FloatFormat.round (f : FloatFormat) (q : ℚ) : Option ℚ :=
  if q = 0 then some 0
  else if f.emax < f.ulpExp q ∨ (f.ulpExp q = f.emax ∧ 2 ^ f.prec ≤ f.mant q) then none
  else
    some ((if q < 0 then -1 else 1) *
      ((f.mant q * 2 ^ (f.ulpExp q).toNat : Nat) : ℚ) / ((2 ^ (-(f.ulpExp q)).toNat : Nat) : ℚ))

/-- The quotient of two `float` values, in `float`; division by zero is not finite. -/
def fdiv (a b : Option ℚ) : Option ℚ :=
  match a, b with
  | some x, some z => if z = 0 then none else binary32.round (x / z)
  | _, _ => none

/-- The product of two `float` values, in `float`. -/
def fmul (a b : Option ℚ) : Option ℚ :=
  match a, b with
  | some x, some y => binary32.round (x * y)
  | _, _ => none

/-- The product of two `double` values (a `float` operand is promoted exactly). -/
def dmul (a b : Option ℚ) : Option ℚ :=
  match a, b with
  | some x, some y => binary64.round (x * y)
  | _, _ => none

/-- The sum of two `double` values. -/
def dadd (a b : Option ℚ) : Option ℚ :=
  match a, b with
  | some x, some y => binary64.round (x + y)
  | _, _ => none

/-- The conversion `static_cast<int>` of a `double`: truncation when the value is
finite and the result fits 32 bits, else the value `undefined` (brought into the
range of `int`). -/
def toInt32 (undefined : Int) (v : Option ℚ) : Int :=
  match v with
  | some q =>
    if -2147483648 ≤ toInt q ∧ toInt q ≤ 2147483647 then toInt q
    else (undefined + 2147483648) % 4294967296 - 2147483648
  | none => (undefined + 2147483648) % 4294967296 - 2147483648

/-- Modelled from the spec: `CameraModel::scaled` (declared outside the shown sources)
yields the "pinhole model scaled by" the factor: focal lengths, principal point and
resolution are multiplied by it. -/
def CameraModel.scaled {P : Platform} (m : CameraModel P) (scale : ℚ) : CameraModel P :=
  { m with
    fx := m.fx * scale, fy := m.fy * scale, cx := m.cx * scale, cy := m.cy * scale,
    imageWidth := (toInt (m.imageWidth * scale)).toNat,
    imageHeight := (toInt (m.imageHeight * scale)).toNat }

/-- The argument `LaserScanInfo(maxPoints, maxRange, localTransform)`. -/
structure LaserScanInfo (P : Platform) where
  maxPoints : Nat
  maxRange : ℚ
  localTransform : P.Transform

/-- The fields of `SensorData` that `captureImage` fills. -/
structure SensorData (P : Platform) where
  scan : List Point3f
  scanInfo : LaserScanInfo P
  rgb : Image
  depth : Raster
  model : Option (CameraModel P)
  id : Int
  stamp : ℚ
  groundTruth : P.Transform

/-- The default-constructed `SensorData()`: no image, no scan, null ground truth. -/
def SensorData.default (P : Platform) : SensorData P :=
  { scan := [], scanInfo := ⟨0, 0, P.null⟩, rgb := Image.none, depth := Raster.none,
    model := none, id := 0, stamp := 0, groundTruth := P.null }

/-- The events the camera posts. -/
inductive Event (P : Platform) where
  /-- Pose-bearing `OdometryEvent(data, pose, rotVariance, transVariance)`. -/
  | odometry (data : SensorData P) (pose : P.Transform) (rotVariance transVariance : ℚ)
  /-- The default `OdometryEvent()`: odometry lost. -/
  | odometryLost
  /-- Diagnostic `CameraTangoEvent(type, key, value)`. -/
  | cameraTango (type : Int) (key value : String)
  /-- Event `PoseEvent(pose)`. -/
  | pose (p : P.Transform)

/-- Modelled from the spec: the thread base class is outside the shown sources; the
orchestrator is warming up or capturing, with "`Stopped` reachable from any state".
The code reads the state through `isRunning()` and `isKilled()` and sets it through
`kill()`. -/
inductive ThreadState where
  | idle
  | running
  | killed
deriving DecidableEq

/-- The members of `CameraTango` (and of its base classes) used by the code. -/
structure State (P : Platform) where
  /-- Whether `tango_config_` is non-null. -/
  tango_config_ : Bool
  firstFrame_ : Bool
  decimation_ : Nat
  autoExposure_ : Bool
  cloud_ : Cloud
  cloudStamp_ : ℚ
  tangoColor_ : Image
  tangoColorType_ : Int
  tangoColorStamp_ : ℚ
  /-- Modelled from the spec: the semaphore `dataReady_` (its class is outside the shown
  sources) is the "ready signal", held as a count: `release()` adds one, and
  `acquire(1, 2000)` "blocks the single consumer until the signal fires or the
  timeout elapses", taking one. -/
  dataReady_ : Nat
  model_ : CameraModel P
  deviceTColorCamera_ : P.Transform
  /-- The thread state behind `isRunning()`, `isKilled()` and `kill()`. -/
  thread : ThreadState
  /-- The counter behind `getNextSeqID()`. -/
  seqID : Int
  /-- Events posted so far, oldest first. -/
  posted : List (Event P)

/-! ## The Tango service -/

/-- The results of the service calls made by `init`, in call order.  A status is a
`TangoErrorType`; `getConfig` tells whether `TangoService_getConfig` returned a
non-null handle. -/
structure TangoInit where
  getConfig : Bool
  config_enable_auto_recovery : Int
  config_enable_color_camera : Int
  config_color_mode_auto : Int
  config_color_iso : Int
  config_enable_depth : Int
  config_depth_mode : Int
  config_enable_low_latency_imu_integration : Int
  tango_service_library_version : Int
  connectOnPointCloudAvailable : Int
  connectOnFrameAvailable : Int
  connectOnPoseAvailable : Int
  connectOnTangoEvent : Int
  connect : Int
  /-- Result of `TangoService_getPoseAtTime(0.0, device to colour camera)`. -/
  extrinsics : Int × TangoPoseData
  /-- Result of `TangoService_getCameraIntrinsics`. -/
  intrinsics : Int × TangoCameraIntrinsics

/-- The pose queries answered by the Tango service during one `captureImage` call.
Each answer is the returned status and the content of the output structure after the
call (on an error that is whatever the structure holds). -/
structure TangoService where
  /-- Query `TangoSupport_calculateRelativePose(rgbStamp, CAMERA_COLOR, cloudStamp, CAMERA_DEPTH)`. -/
  calculateRelativePose : ℚ → ℚ → Int × TangoPoseData
  /-- Query `TangoService_getPoseAtTime(timestamp, start of service to device)`. -/
  getPoseAtTime : ℚ → Int × TangoPoseData

/-! ## CameraTango -/

variable {P : Platform}

/-- Source lines 97-108: the constructor (requires `decimation >= 1`).  The camera
model and the extrinsic are default-constructed. -/
def CameraTango.new (P : Platform) (decimation : Nat) (autoExposure : Bool) : State P :=
  { tango_config_ := false, firstFrame_ := true, decimation_ := decimation,
    autoExposure_ := autoExposure, cloud_ := [], cloudStamp_ := 0,
    tangoColor_ := Image.none, tangoColorType_ := 0, tangoColorStamp_ := 0,
    dataReady_ := 0, model_ := ⟨0, 0, 0, 0, 0, 0, P.null⟩,
    deviceTColorCamera_ := P.null, thread := ThreadState.idle, seqID := 0, posted := [] }

/-- The test `isRunning()` of the thread base class. -/
def State.isRunning (s : State P) : Bool := s.thread == ThreadState.running

/-- The test `isKilled()` of the thread base class. -/
def State.isKilled (s : State P) : Bool := s.thread == ThreadState.killed

/-- The call `kill()` of the thread base class. -/
def State.kill (s : State P) : State P := { s with thread := ThreadState.killed }

/-- The call `post(event)`: the event is appended to the log of posted events. -/
def State.post (s : State P) (e : Event P) : State P := { s with posted := s.posted ++ [e] }

/-- Source lines 327-336. -/
def close (s : State P) : State P :=
  let s := if s.tango_config_ then { s with tango_config_ := false } else s
  { s with firstFrame_ := true }

/-- Source lines 410-425. -/
def tangoPoseToTransform (P : Platform) (tangoPose : TangoPoseData) : P.Transform :=
  P.ofPose tangoPose.translation tangoPose.orientation

/-- Source lines 115-325: returns the result of `init` and the state it leaves.  The
local transform first given to the model (line 313) is replaced at line 317; the
restart of the start-up timer is not modelled. -/
def init (t : TangoInit) (s : State P) : Bool × State P :=
  let s := close s
  let s := { s with tango_config_ := t.getConfig }
  if !s.tango_config_ then (false, s)
  else if t.config_enable_auto_recovery ≠ TANGO_SUCCESS then (false, s)
  else if t.config_enable_color_camera ≠ TANGO_SUCCESS then (false, s)
  else if t.config_color_mode_auto = TANGO_SUCCESS ∧ !s.autoExposure_ ∧
      t.config_color_iso ≠ TANGO_SUCCESS then (false, s)
  else if t.config_enable_depth ≠ TANGO_SUCCESS then (false, s)
  else if t.config_depth_mode ≠ TANGO_SUCCESS then (false, s)
  else if t.config_enable_low_latency_imu_integration ≠ TANGO_SUCCESS then (false, s)
  else if t.tango_service_library_version ≠ TANGO_SUCCESS then (false, s)
  else if t.connectOnPointCloudAvailable ≠ TANGO_SUCCESS then (false, s)
  else if t.connectOnFrameAvailable ≠ TANGO_SUCCESS then (false, s)
  else if t.connectOnPoseAvailable ≠ TANGO_SUCCESS then (false, s)
  else if t.connectOnTangoEvent ≠ TANGO_SUCCESS then (false, s)
  else if t.connect ≠ TANGO_SUCCESS then (false, s)
  else if t.extrinsics.1 ≠ TANGO_SUCCESS then (false, s)
  else
    let s := { s with deviceTColorCamera_ := tangoPoseToTransform P t.extrinsics.2 }
    if t.intrinsics.1 ≠ TANGO_SUCCESS then (false, s)
    else
      let i := t.intrinsics.2
      let model : CameraModel P :=
        { fx := i.fx, fy := i.fy, cx := i.cx, cy := i.cy,
          imageWidth := i.width, imageHeight := i.height,
          localTransform := P.mul (P.inverse P.tango_device_T_rtabmap_device) s.deviceTColorCamera_ }
      (true, { s with model_ := model })

/-- Source lines 338-355. -/
def cloudReceived (cloud : Cloud) (timestamp : ℚ) (s : State P) : State P :=
  if s.isRunning then
    let notify := s.cloud_.isEmpty
    let s := { s with cloud_ := cloud, cloudStamp_ := timestamp }
    if !s.tangoColor_.empty && notify then { s with dataReady_ := s.dataReady_ + 1 } else s
  else s

/-- Source lines 357-380. -/
def rgbReceived (tangoImage : Image) (type : Int) (timestamp : ℚ) (s : State P) : State P :=
  if s.isRunning then
    if !s.cloud_.isEmpty then
      if !tangoImage.empty then
        let notify := s.tangoColor_.empty
        let s := { s with tangoColor_ := tangoImage, tangoColorStamp_ := timestamp,
                          tangoColorType_ := type }
        if !s.cloud_.isEmpty && notify then { s with dataReady_ := s.dataReady_ + 1 } else s
      else s
    else s
  else s

/-- Source lines 386-393.  The constant `opticalRotationTango` (lines 382-385) is a
parameter. -/
def poseReceived (opticalRotationTango : P.Transform) (pose : P.Transform) (s : State P) :
    State P :=
  if !P.isNull pose && decide (P.getNormSquared pose < 100000) then
    s.post (Event.pose (P.mul (P.mul pose s.deviceTColorCamera_) opticalRotationTango))
  else s

/-- Source lines 427-457.  The status returned by the query is only logged (lines
436-442); what is tested is the `status_code` of the output record. -/
def getPoseAtTimestamp (P : Platform) (tango : TangoService) (timestamp : ℚ) : P.Transform :=
  let pose : P.Transform := P.null
  let r := tango.getPoseAtTime timestamp
  let pose_start_service_T_device := r.2
  if pose_start_service_T_device.status_code ≠ TANGO_POSE_VALID then pose
  else tangoPoseToTransform P pose_start_service_T_device

/-! ### Depth projector -/

/-- The conversion of a `float` to `unsigned short`: truncation when the value is
finite and the result is within 0 .. 65535, else the value `undefined` (brought
into the range of `unsigned short`). -/
def toUShort (undefined : Nat) (v : Option ℚ) : Nat :=
  match v with
  | some q =>
    if 0 ≤ toInt q ∧ toInt q ≤ 65535 then (toInt q).toNat else undefined % 65536
  | none => undefined % 65536

/-- Source line 589: the column computed for a transformed point.  The quotient is a
`float`; `fx()` and `cx()` of the camera model are `double`, so product and sum are
in `double`. -/
def pixel_x (depthModel : CameraModel P) (pt : Point3f) : Int :=
  toInt32 (P.undefinedInt depthModel.fx depthModel.cx pt.x pt.z)
    (dadd (dmul (some depthModel.fx) (fdiv (some pt.x) (some pt.z))) (some depthModel.cx))

/-- Source line 590: the row computed for a transformed point, as `pixel_x`. -/
def pixel_y (depthModel : CameraModel P) (pt : Point3f) : Int :=
  toInt32 (P.undefinedInt depthModel.fy depthModel.cy pt.y pt.z)
    (dadd (dmul (some depthModel.fy) (fdiv (some pt.y) (some pt.z))) (some depthModel.cy))

/-- Source line 591: the quantized depth of a transformed point, the `float` product
`pt.z * 1000.0f` converted to `unsigned short`. -/
def depth_value (P : Platform) (pt : Point3f) : Nat :=
  toUShort (P.undefinedUShort pt.z) (fmul (some pt.z) (some 1000))

/-- The variables updated by the projection loop (source lines 572-576). -/
structure Projection where
  depth : Raster
  scanData : List Point3f
  oi : Nat
  pixelsSet : Nat

/-- Source lines 579-603: the loop body for index `i` and cloud element `p`. -/
def projectPoint (P : Platform) (colorToDepth : P.Transform) (depthModel : CameraModel P)
    (i : Nat) (p : Vec4f) (st : Projection) : Projection :=
  let pt := P.transformPoint ⟨p.x, p.y, p.z⟩ colorToDepth
  let st :=
    if 0 < pt.z ∧ i % scanDownsampling = 0 then
      { st with scanData := st.scanData.set st.oi pt, oi := st.oi + 1 }
    else st
  if 0 ≤ pixel_x depthModel pt ∧ pixel_x depthModel pt < st.depth.cols ∧
      0 < pixel_y depthModel pt ∧ pixel_y depthModel pt < st.depth.rows ∧
      depth_value P pt ≠ 0 then
    let depthPixel := st.depth.cell (pixel_y depthModel pt).toNat (pixel_x depthModel pt).toNat
    if depthPixel = 0 ∨ depthPixel > depth_value P pt then
      { st with
        depth := st.depth.write (pixel_y depthModel pt).toNat (pixel_x depthModel pt).toNat
          (depth_value P pt),
        pixelsSet := st.pixelsSet + 1 }
    else st
  else st

/-- Source lines 577-604: the loop, from index `i` over the remaining elements. -/
def projectFrom (P : Platform) (colorToDepth : P.Transform) (depthModel : CameraModel P) :
    Nat → Cloud → Projection → Projection
  | _, [], st => st
  | i, p :: rest, st =>
    projectFrom P colorToDepth depthModel (i + 1) rest (projectPoint P colorToDepth depthModel i p st)

/-- Source lines 572-604: the zero raster at one eighth of the resolution, the scan
buffer of `cloud.total()` points, and the loop. -/
def projectionLoop (P : Platform) (model_ : CameraModel P) (colorToDepth : P.Transform)
    (cloud : Cloud) : Projection :=
  let depth := Raster.zeros (model_.imageHeight / 8) (model_.imageWidth / 8)
  let depthModel := model_.scaled (1 / 8)
  let scanData : List Point3f := List.replicate cloud.length ⟨0, 0, 0⟩
  projectFrom P colorToDepth depthModel 0 cloud ⟨depth, scanData, 0, 0⟩

/-! ### Rendezvous and capture -/

/-- The frames taken out of the two slots (the locals of source lines 485-490). -/
structure Pair where
  cloud : Cloud
  cloudStamp : ℚ
  tangoImage : Image
  rgbStamp : ℚ
  tangoColorType : Int
deriving DecidableEq

/-- Source lines 477-481 and 496-503: both slots reset. -/
def State.clearSlots (s : State P) : State P :=
  { s with cloud_ := [], cloudStamp_ := 0, tangoColor_ := Image.none,
           tangoColorStamp_ := 0, tangoColorType_ := 0 }

/-- Source lines 464-504: `dataReady_.acquire(1, 2000)` as an atomic step (it succeeds
when the count is positive and times out when it is zero), then either the timeout
branch or the locked block that takes the pair. -/
def waitForPair (s : State P) : Option Pair × State P :=
  if s.dataReady_ = 0 then
    let s :=
      if s.isRunning then
        s.post (Event.cameraTango 0 "CameraTango" "No frames received since 2 seconds.")
      else s
    (none, s.clearSlots)
  else
    let s := { s with dataReady_ := s.dataReady_ - 1 }
    (some ⟨s.cloud_, s.cloudStamp_, s.tangoColor_, s.tangoColorStamp_, s.tangoColorType_⟩,
      s.clearSlots)

/-- Source lines 506-522: the colour conversion chosen by the format tag, if any. -/
def conversionOf (tangoColorType : Int) : Option ColorConversion :=
  if tangoColorType = TANGO_HAL_PIXEL_FORMAT_RGBA_8888 then some ColorConversion.CV_RGBA2BGR
  else if tangoColorType = TANGO_HAL_PIXEL_FORMAT_YV12 then some ColorConversion.CV_YUV2BGR_YV12
  else if tangoColorType = TANGO_HAL_PIXEL_FORMAT_YCrCb_420_SP then
    some ColorConversion.CV_YUV2BGR_NV21
  else none

/-- Source lines 543-564: the colour-to-depth transform, null when the query fails or
the pose is rejected. -/
def colorToDepthOf (P : Platform) (tango : TangoService) (rgbStamp cloudStamp : ℚ) :
    P.Transform :=
  let r := tango.calculateRelativePose rgbStamp cloudStamp
  let colorToDepth := if r.1 = TANGO_SUCCESS then tangoPoseToTransform P r.2 else P.null
  if P.getNormSquared colorToDepth > 100000 then P.null else colorToDepth

/-- Source lines 506-641: what `captureImage` does with a pair. -/
def processPair (P : Platform) (tango : TangoService) (pair : Pair) (s : State P) :
    SensorData P × State P :=
  match conversionOf pair.tangoColorType with
  | none => (SensorData.default P, s)
  | some code =>
    let rgb := P.cvtColor pair.tangoImage code
    let rgb := if s.decimation_ > 1 then P.decimate rgb s.decimation_ else rgb
    let model :=
      if s.decimation_ > 1 then s.model_.scaled (1 / (s.decimation_ : ℚ)) else s.model_
    let colorToDepth := colorToDepthOf P tango pair.rgbStamp pair.cloudStamp
    let proj : Projection :=
      if !P.isNull colorToDepth then projectionLoop P s.model_ colorToDepth pair.cloud
      else ⟨Raster.none, [], 0, 0⟩
    let depth := proj.depth
    let scan : List Point3f := if proj.oi ≠ 0 then proj.scanData.take proj.oi else []
    if !rgb.empty && !depth.empty then
      let depth := P.fillDepthHoles depth holeSize maxDepthError
      let poseDevice := getPoseAtTimestamp P tango pair.rgbStamp
      let odom :=
        P.mul (P.mul P.rtabmap_world_T_tango_world poseDevice) P.tango_device_T_rtabmap_device
      let s := { s with seqID := s.seqID + 1 }
      ({ scan := scan,
         scanInfo := ⟨pair.cloud.length / scanDownsampling, 0, model.localTransform⟩,
         rgb := rgb, depth := depth, model := some model, id := s.seqID,
         stamp := pair.rgbStamp, groundTruth := odom }, s)
    else (SensorData.default P, s)

/-- Source lines 459-643. -/
def captureImage (P : Platform) (tango : TangoService) (s : State P) :
    SensorData P × State P :=
  match (waitForPair s).1 with
  | none => (SensorData.default P, (waitForPair s).2)
  | some pair => processPair P tango pair (waitForPair s).2

/-- The variance passed to the pose-bearing event (source line 665). -/
def variance (firstFrame_ : Bool) : ℚ := if firstFrame_ then 9999 else 1 / 10000

/-- Source lines 654-679: `tango` answers the pose queries of this iteration. -/
def mainLoop (P : Platform) (tango : TangoService) (s : State P) : State P :=
  if s.tango_config_ then
    let data := (captureImage P tango s).1
    let s := (captureImage P tango s).2
    if !P.isNull data.groundTruth then
      let pose := data.groundTruth
      let data := { data with groundTruth := P.null }
      let s := s.post (Event.odometry data pose (variance s.firstFrame_) (variance s.firstFrame_))
      { s with firstFrame_ := false }
    else if !s.isKilled then s.post Event.odometryLost
    else s
  else s.kill

/-! ### Traces -/

/-- A step of a session: a producer callback or a consumer call. -/
inductive Action where
  | cloudReceived (cloud : Cloud) (timestamp : ℚ)
  | rgbReceived (tangoImage : Image) (type : Int) (timestamp : ℚ)
  | captureImage (tango : TangoService)
  | mainLoop (tango : TangoService)

/-- The state after one step. -/
def Action.apply (P : Platform) (a : Action) (s : State P) : State P :=
  match a with
  | Action.cloudReceived cloud timestamp => rtabmap.cloudReceived cloud timestamp s
  | Action.rgbReceived tangoImage type timestamp =>
    rtabmap.rgbReceived tangoImage type timestamp s
  | Action.captureImage tango => (rtabmap.captureImage P tango s).2
  | Action.mainLoop tango => rtabmap.mainLoop P tango s

/-- The state after a sequence of steps, taken in list order. -/
def run (P : Platform) (acts : List Action) (s : State P) : State P :=
  acts.foldl (fun s a => a.apply P s) s

/-- Whether an event is a pose-bearing `OdometryEvent`. -/
def Event.isPoseBearing : Event P → Bool
  | Event.odometry _ _ _ _ => true
  | _ => false

/-- Whether an event is the lost `OdometryEvent()`. -/
def Event.isLost : Event P → Bool
  | Event.odometryLost => true
  | _ => false

/-- The variances of the pose-bearing events of a log, in order. -/
def poseVariances : List (Event P) → List (ℚ × ℚ)
  | [] => []
  | Event.odometry _ _ r t :: rest => (r, t) :: poseVariances rest
  | _ :: rest => poseVariances rest

/-! ### A reference platform

Used to evaluate the code on concrete inputs. -/

/-- Modelled from the spec: `Transform` is a "rigid 6-DOF pose (rotation +
translation)" with "a null/invalid sentinel"; here a 3 x 4 matrix `[R | t]`, the
zero matrix being the sentinel. -/
structure Matrix34 where
  r11 : ℚ
  r12 : ℚ
  r13 : ℚ
  tx : ℚ
  r21 : ℚ
  r22 : ℚ
  r23 : ℚ
  ty : ℚ
  r31 : ℚ
  r32 : ℚ
  r33 : ℚ
  tz : ℚ
deriving DecidableEq

/-- The zero matrix. -/
def Matrix34.null : Matrix34 := ⟨0, 0, 0, 0, 0, 0, 0, 0, 0, 0, 0, 0⟩

/-- The identity transform. -/
def Matrix34.identity : Matrix34 := ⟨1, 0, 0, 0, 0, 1, 0, 0, 0, 0, 1, 0⟩

/-- Composition of affine maps. -/
def Matrix34.mul (a b : Matrix34) : Matrix34 :=
  { r11 := a.r11 * b.r11 + a.r12 * b.r21 + a.r13 * b.r31,
    r12 := a.r11 * b.r12 + a.r12 * b.r22 + a.r13 * b.r32,
    r13 := a.r11 * b.r13 + a.r12 * b.r23 + a.r13 * b.r33,
    tx := a.r11 * b.tx + a.r12 * b.ty + a.r13 * b.tz + a.tx,
    r21 := a.r21 * b.r11 + a.r22 * b.r21 + a.r23 * b.r31,
    r22 := a.r21 * b.r12 + a.r22 * b.r22 + a.r23 * b.r32,
    r23 := a.r21 * b.r13 + a.r22 * b.r23 + a.r23 * b.r33,
    ty := a.r21 * b.tx + a.r22 * b.ty + a.r23 * b.tz + a.ty,
    r31 := a.r31 * b.r11 + a.r32 * b.r21 + a.r33 * b.r31,
    r32 := a.r31 * b.r12 + a.r32 * b.r22 + a.r33 * b.r32,
    r33 := a.r31 * b.r13 + a.r32 * b.r23 + a.r33 * b.r33,
    tz := a.r31 * b.tx + a.r32 * b.ty + a.r33 * b.tz + a.tz }

/-- Inverse of a rigid transform: rotation transposed, translation turned back. -/
def Matrix34.inverse (a : Matrix34) : Matrix34 :=
  { r11 := a.r11, r12 := a.r21, r13 := a.r31,
    tx := -(a.r11 * a.tx + a.r21 * a.ty + a.r31 * a.tz),
    r21 := a.r12, r22 := a.r22, r23 := a.r32,
    ty := -(a.r12 * a.tx + a.r22 * a.ty + a.r32 * a.tz),
    r31 := a.r13, r32 := a.r23, r33 := a.r33,
    tz := -(a.r13 * a.tx + a.r23 * a.ty + a.r33 * a.tz) }

/-- Rotation matrix of a quaternion (x, y, z, w) beside a translation. -/
def Matrix34.ofPose (t : ℚ × ℚ × ℚ) (q : ℚ × ℚ × ℚ × ℚ) : Matrix34 :=
  let x := q.1
  let y := q.2.1
  let z := q.2.2.1
  let w := q.2.2.2
  { r11 := 1 - 2 * (y * y + z * z), r12 := 2 * (x * y - z * w), r13 := 2 * (x * z + y * w),
    tx := t.1,
    r21 := 2 * (x * y + z * w), r22 := 1 - 2 * (x * x + z * z), r23 := 2 * (y * z - x * w),
    ty := t.2.1,
    r31 := 2 * (x * z - y * w), r32 := 2 * (y * z + x * w), r33 := 1 - 2 * (x * x + y * y),
    tz := t.2.2 }

/-- The point `R p + t`. -/
def Matrix34.transformPoint (p : Point3f) (a : Matrix34) : Point3f :=
  ⟨a.r11 * p.x + a.r12 * p.y + a.r13 * p.z + a.tx,
   a.r21 * p.x + a.r22 * p.y + a.r23 * p.z + a.ty,
   a.r31 * p.x + a.r32 * p.y + a.r33 * p.z + a.tz⟩

/-- Modelled from the spec: a stand-in for the collaborators outside the shown
sources.  Transforms are `Matrix34`; the "fixed world-convention and
body-convention calibration transforms" are quarter turns about the vertical axis;
image conversion, decimation and hole filling keep the content and adjust the
shape only; an undefined conversion yields what an x86 build yields (the integer
with only the sign bit set, whose low 16 bits are 0). -/
def refPlatform : Platform :=
  { Transform := Matrix34,
    null := Matrix34.null,
    isNull := fun t => decide (t = Matrix34.null),
    isNull_null := by simp,
    getNormSquared := fun t => t.tx * t.tx + t.ty * t.ty + t.tz * t.tz,
    mul := Matrix34.mul,
    inverse := Matrix34.inverse,
    ofPose := Matrix34.ofPose,
    transformPoint := Matrix34.transformPoint,
    cvtColor := fun img code =>
      match code with
      | ColorConversion.CV_RGBA2BGR => img
      | _ => { img with rows := img.rows * 2 / 3 },
    decimate := fun img d => { img with rows := img.rows / d, cols := img.cols / d },
    fillDepthHoles := fun depth _ _ => depth,
    rtabmap_world_T_tango_world := ⟨0, 1, 0, 0, -1, 0, 0, 0, 0, 0, 1, 0⟩,
    tango_device_T_rtabmap_device := ⟨0, -1, 0, 0, 1, 0, 0, 0, 0, 0, 1, 0⟩,
    undefinedInt := fun _ _ _ _ => -2147483648,
    undefinedUShort := fun _ => 0 }

/-! ### Vocabulary of the statements -/

/-- Both slots hold their reset values (source lines 477-481). -/
def State.slotsReset (s : State P) : Prop :=
  s.cloud_ = [] ∧ s.cloudStamp_ = 0 ∧ s.tangoColor_ = Image.none ∧
    s.tangoColorStamp_ = 0 ∧ s.tangoColorType_ = 0

/-- A state with empty slots and a ready count of zero, otherwise as `s`. -/
def State.emptied (s : State P) : State P :=
  { s with cloud_ := [], tangoColor_ := Image.none, dataReady_ := 0 }

/-- A sequence of point-sample posts only. -/
def cloudPosts (clouds : List (Cloud × ℚ)) : List Action :=
  clouds.map fun c => Action.cloudReceived c.1 c.2

/-- A sequence of colour-frame posts only. -/
def colorPosts (frames : List (Image × Int × ℚ)) : List Action :=
  frames.map fun f => Action.rgbReceived f.1 f.2.1 f.2.2

/-- The rendezvous invariant: a colour frame is buffered only beside a point sample,
and the ready count is 1 exactly when both slots are filled, else 0. -/
def State.rendezvousInv (s : State P) : Prop :=
  (s.tangoColor_.empty = false → s.cloud_ ≠ []) ∧
    s.dataReady_ = if s.tangoColor_.empty then 0 else 1

/-- Steps of a rendezvous trace in which every posted point cloud has a point. -/
def Action.cloudNonEmpty : Action → Prop
  | Action.cloudReceived cloud _ => cloud ≠ []
  | _ => True

/-! ### Concrete inputs -/

/-- A camera model with fx = fy = 100, cx = cy = 50 on a 100 x 100 image. -/
def model100 : CameraModel refPlatform := ⟨100, 100, 50, 50, 100, 100, Matrix34.identity⟩

/-- A constructed camera whose thread runs, with a configuration handle and
`model100`; both slots are empty and the ready count is 0. -/
def startedCamera : State refPlatform :=
  { CameraTango.new refPlatform 1 false with
    tango_config_ := true, thread := ThreadState.running, model_ := model100 }

/-- A point cloud of one point, two metres ahead on the optical axis. -/
def sampleCloud : Cloud := [⟨0, 0, 2, 1⟩]

/-- A 1 x 1 RGBA image. -/
def sampleImage : Image := ⟨1, 1, [0, 0, 0, 255]⟩

/-- Two regular posts, then a point cloud with no point, then a regular cloud. -/
def emptyCloudTrace : List Action :=
  [Action.cloudReceived sampleCloud 1,
   Action.rgbReceived sampleImage TANGO_HAL_PIXEL_FORMAT_RGBA_8888 2,
   Action.cloudReceived [] 3,
   Action.cloudReceived sampleCloud 4]

/-- A pose record with the given translation, no rotation, and the given status. -/
def poseData (x y z : ℚ) (status_code : Int) : TangoPoseData :=
  ⟨(x, y, z), (0, 0, 0, 1), status_code⟩

/-- A service whose queries succeed: no offset between the cameras, and the device at
(1, 2, 3). -/
def goodService : TangoService :=
  { calculateRelativePose := fun _ _ => (TANGO_SUCCESS, poseData 0 0 0 TANGO_POSE_VALID),
    getPoseAtTime := fun _ => (TANGO_SUCCESS, poseData 1 2 3 TANGO_POSE_VALID) }

/-- A service whose absolute pose query returns `TANGO_ERROR` while the output record
holds a valid-looking pose (left from an earlier use of the memory). -/
def errorStatusService : TangoService :=
  { goodService with
    getPoseAtTime := fun _ => (TANGO_ERROR, poseData 1 2 3 TANGO_POSE_VALID) }

/-- A service whose relative pose query fails. -/
def relativePoseFails : TangoService :=
  { goodService with
    calculateRelativePose := fun _ _ => (TANGO_ERROR, poseData 0 0 0 TANGO_POSE_INVALID) }

/-- Service answers with which `init` succeeds: fx = fy = 100, cx = cy = 50 on a
100 x 100 image. -/
def goodInit : TangoInit :=
  { getConfig := true, config_enable_auto_recovery := TANGO_SUCCESS,
    config_enable_color_camera := TANGO_SUCCESS, config_color_mode_auto := TANGO_SUCCESS,
    config_color_iso := TANGO_SUCCESS, config_enable_depth := TANGO_SUCCESS,
    config_depth_mode := TANGO_SUCCESS,
    config_enable_low_latency_imu_integration := TANGO_SUCCESS,
    tango_service_library_version := TANGO_SUCCESS,
    connectOnPointCloudAvailable := TANGO_SUCCESS, connectOnFrameAvailable := TANGO_SUCCESS,
    connectOnPoseAvailable := TANGO_SUCCESS, connectOnTangoEvent := TANGO_SUCCESS,
    connect := TANGO_SUCCESS,
    extrinsics := (TANGO_SUCCESS, poseData 0 0 0 TANGO_POSE_VALID),
    intrinsics := (TANGO_SUCCESS, ⟨100, 100, 50, 50, 100, 100⟩) }

/-- Service answers with which `init` fails after the configuration handle was
obtained: enabling the depth stream is refused. -/
def depthRefusedInit : TangoInit :=
  { goodInit with config_enable_depth := TANGO_ERROR }

/-- The camera after the failed `init`, its thread started all the same. -/
def afterFailedInit : State refPlatform :=
  { (init depthRefusedInit (CameraTango.new refPlatform 1 false)).2 with
    thread := ThreadState.running }

/-- The running camera after one point cloud and one colour frame: a pair is ready. -/
def pairReady : State refPlatform :=
  run refPlatform
    [Action.cloudReceived sampleCloud 1,
     Action.rgbReceived sampleImage TANGO_HAL_PIXEL_FORMAT_RGBA_8888 2] startedCamera

/-- The variance tags a session may have emitted so far, given the first-frame flag:
none while the flag is set; otherwise 9999 once, then 0.0001 each time. -/
def tagInv (firstFrame : Bool) (vs : List (ℚ × ℚ)) : Prop :=
  (firstFrame = true ∧ vs = []) ∨
    (firstFrame = false ∧ ∃ k, vs = (9999, 9999) :: List.replicate k (1 / 10000, 1 / 10000))

/-- A session with two successful captures, one lost iteration in between. -/
def twoCaptures : List Action :=
  [Action.cloudReceived sampleCloud 1,
   Action.rgbReceived sampleImage TANGO_HAL_PIXEL_FORMAT_RGBA_8888 2,
   Action.mainLoop goodService,
   Action.mainLoop goodService,
   Action.cloudReceived sampleCloud 3,
   Action.rgbReceived sampleImage TANGO_HAL_PIXEL_FORMAT_RGBA_8888 4,
   Action.mainLoop goodService]

/-- The transformed point of a cloud element (source line 580). -/
def transformed (P : Platform) (colorToDepth : P.Transform) (p : Vec4f) : Point3f :=
  P.transformPoint ⟨p.x, p.y, p.z⟩ colorToDepth

/-- The raster part of the loop body (source lines 593-603) for a transformed point. -/
def zwrite (depthModel : CameraModel P) (depth : Raster) (pt : Point3f) : Raster :=
  if 0 ≤ pixel_x depthModel pt ∧ pixel_x depthModel pt < depth.cols ∧
      0 < pixel_y depthModel pt ∧ pixel_y depthModel pt < depth.rows ∧
      depth_value P pt ≠ 0 then
    if depth.cell (pixel_y depthModel pt).toNat (pixel_x depthModel pt).toNat = 0 ∨
        depth.cell (pixel_y depthModel pt).toNat (pixel_x depthModel pt).toNat > depth_value P pt then
      depth.write (pixel_y depthModel pt).toNat (pixel_x depthModel pt).toNat (depth_value P pt)
    else depth
  else depth

/-- The test of source lines 593-595 passes for a transformed point in a raster of
`rows` x `cols` cells, and the cell addressed is (r, c). -/
def lands (depthModel : CameraModel P) (rows cols : Nat) (pt : Point3f) (r c : Nat) : Prop :=
  (0 ≤ pixel_x depthModel pt ∧ pixel_x depthModel pt < cols ∧
    0 < pixel_y depthModel pt ∧ pixel_y depthModel pt < rows ∧ depth_value P pt ≠ 0) ∧
  (pixel_y depthModel pt).toNat = r ∧ (pixel_x depthModel pt).toNat = c

/-- The pixel coordinates computed for a transformed point are row `r` and column `c`,
and its quantized depth is not zero. -/
def projectsTo (depthModel : CameraModel P) (pt : Point3f) (r c : Nat) : Prop :=
  pixel_y depthModel pt = r ∧ pixel_x depthModel pt = c ∧ depth_value P pt ≠ 0

/-- A plane of 10 x 10 points at depth 2 (2000 units), with coordinates that are
`float` values, whose computed pixel coordinates, with `model100` and no offset
between the cameras, are the cells (row0 + j, 1 + i) for i, j below 10. -/
def planarCloud (row0 : Nat) : Cloud :=
  (List.range 10).flatMap fun j => (List.range 10).map fun i =>
    ⟨(11 * (i : ℚ) - 51) / 64, (11 * ((j : ℚ) + row0) - 62) / 64, 2, 1⟩

/-- Source lines 606-609: the scan cut out of the buffer after the loop, the first
`oi` points, or nothing when `oi` is 0. -/
def Projection.scan (proj : Projection) : List Point3f :=
  if proj.oi ≠ 0 then proj.scanData.take proj.oi else []

/-- The scan in the words of the claim, for a cloud whose first element has index `i`:
the transformed points, in index order, whose index is a multiple of 10 and whose
transformed depth is positive. -/
def expectedScanFrom (P : Platform) (colorToDepth : P.Transform) (i : Nat) (cloud : Cloud) :
    List Point3f :=
  ((cloud.enumFrom i).filter fun ip =>
      decide (ip.1 % 10 = 0 ∧ 0 < (transformed P colorToDepth ip.2).z)).map
    fun ip => transformed P colorToDepth ip.2

/-- The scan in the words of the claim: `expectedScanFrom` with indices from 0. -/
def expectedScan (P : Platform) (colorToDepth : P.Transform) (cloud : Cloud) : List Point3f :=
  expectedScanFrom P colorToDepth 0 cloud

/-- The running camera after a point cloud of `n` copies of the sample point and one
colour frame: a pair is ready. -/
def pairReadyWith (n : Nat) : State refPlatform :=
  run refPlatform
    [Action.cloudReceived (List.replicate n ⟨0, 0, 2, 1⟩) 1,
     Action.rgbReceived sampleImage TANGO_HAL_PIXEL_FORMAT_RGBA_8888 2] startedCamera

/-! ### Callback routers -/

/-- Tango SDK: the fields of `TangoPointCloud` the router reads; `num_points` is the
length of `points`. -/
structure TangoPointCloud where
  timestamp : ℚ
  points : List Vec4f

/-- Tango SDK: the fields of `TangoImageBuffer` the router reads. -/
structure TangoImageBuffer where
  width : Nat
  height : Nat
  format : Int
  timestamp : ℚ
  data : List Nat
deriving DecidableEq

/-- The conversions of source line 75: the format as `unsigned int`, received as
`int`, on 32 bits. -/
def castFormat (format : Int) : Int :=
  if format % 4294967296 < 2147483648 then format % 4294967296
  else format % 4294967296 - 4294967296

/-- Source lines 46-50. -/
def onPointCloudAvailableRouter (point_cloud : TangoPointCloud) (s : State P) : State P :=
  cloudReceived point_cloud.points point_cloud.timestamp s

/-- Source lines 55-71: the matrix wrapped around the frame, empty for an unsupported
format. -/
def routedImage (color : TangoImageBuffer) : Image :=
  if color.format = TANGO_HAL_PIXEL_FORMAT_RGBA_8888 then
    ⟨color.height, color.width, color.data⟩
  else if color.format = TANGO_HAL_PIXEL_FORMAT_YV12 then
    ⟨color.height + color.height / 2, color.width, color.data⟩
  else if color.format = TANGO_HAL_PIXEL_FORMAT_YCrCb_420_SP then
    ⟨color.height + color.height / 2, color.width, color.data⟩
  else Image.none

/-- Source lines 52-77. -/
def onFrameAvailableRouter (color : TangoImageBuffer) (s : State P) : State P :=
  let tangoImage := routedImage color
  if !tangoImage.empty then rgbReceived tangoImage (castFormat color.format) color.timestamp s
  else s

/-- A step of a session fed through the routers. -/
inductive RoutedAction where
  | pointCloud (point_cloud : TangoPointCloud)
  | frame (color : TangoImageBuffer)
  | captureImage (tango : TangoService)
  | mainLoop (tango : TangoService)

/-- The state after one routed step. -/
def RoutedAction.apply (P : Platform) (a : RoutedAction) (s : State P) : State P :=
  match a with
  | RoutedAction.pointCloud point_cloud => onPointCloudAvailableRouter point_cloud s
  | RoutedAction.frame color => onFrameAvailableRouter color s
  | RoutedAction.captureImage tango => (rtabmap.captureImage P tango s).2
  | RoutedAction.mainLoop tango => rtabmap.mainLoop P tango s

/-- The state after a sequence of routed steps, taken in list order. -/
def runRouted (P : Platform) (acts : List RoutedAction) (s : State P) : State P :=
  acts.foldl (fun s a => a.apply P s) s

/-- A colour frame held in the slot carries one of the three supported format tags. -/
def State.colorTagged (s : State P) : Prop :=
  s.tangoColor_.empty = false → conversionOf s.tangoColorType_ ≠ none

/-- Source lines 382-385: the constant `opticalRotationTango`, in the reference
platform. -/
def opticalRotationTango : Matrix34 := ⟨1, 0, 0, 0, 0, -1, 0, 0, 0, 0, -1, 0⟩

/-- A service that reports the device 1000 m from the start of service, as a valid
pose. -/
def farDeviceService : TangoService :=
  { goodService with
    getPoseAtTime := fun _ => (TANGO_SUCCESS, poseData 1000 0 0 TANGO_POSE_VALID) }

/-- A 2 x 2 frame with a format tag (35) that is none of the three supported ones. -/
def unsupportedFrame : TangoImageBuffer := ⟨2, 2, 35, 9, [0, 0, 0, 0, 0, 0]⟩

/-! ### The pixel of the claim -/

/-- The column in the words of the claim, "pinhole model scaled by 1/8, truncated to
integers": fx / 8 times the ratio x / z, plus cx / 8, in the arithmetic of the code
(the ratio a `float`, product and sum `double`), truncated to `int`. -/
def pinholeColumn (model_ : CameraModel P) (pt : Point3f) : Int :=
  toInt32 (P.undefinedInt (model_.fx / 8) (model_.cx / 8) pt.x pt.z)
    ((if pt.z = 0 then none else binary32.round (pt.x / pt.z)).bind fun ratio =>
      (binary64.round (model_.fx / 8 * ratio)).bind fun scaled =>
        binary64.round (scaled + model_.cx / 8))

/-- The row in the words of the claim: fy / 8 times the ratio y / z, plus cy / 8, as
`pinholeColumn`. -/
def pinholeRow (model_ : CameraModel P) (pt : Point3f) : Int :=
  toInt32 (P.undefinedInt (model_.fy / 8) (model_.cy / 8) pt.y pt.z)
    ((if pt.z = 0 then none else binary32.round (pt.y / pt.z)).bind fun ratio =>
      (binary64.round (model_.fy / 8 * ratio)).bind fun scaled =>
        binary64.round (scaled + model_.cy / 8))

/-- The quantized depth in the words of the spec, "integer sub-millimeter units": the
depth times 1000 as a `float`, truncated to 16 bits. -/
def quantizedDepth (P : Platform) (pt : Point3f) : Nat :=
  toUShort (P.undefinedUShort pt.z) (binary32.round (pt.z * 1000))

/-- The pixel of the claim for a transformed point is row `r`, column `c`, and its
quantized depth is not zero. -/
def claimedCell (model_ : CameraModel P) (pt : Point3f) (r c : Nat) : Prop :=
  pinholeRow model_ pt = r ∧ pinholeColumn model_ pt = c ∧ quantizedDepth P pt ≠ 0

/-! ## Theorems -/

/-! ### Rendezvous buffer -/

theorem Image.none_empty : Image.none.empty = true := by decide

theorem run_cons (a : Action) (acts : List Action) (s : State P) :
    run P (a :: acts) s = run P acts (a.apply P s) := rfl

theorem run_nil (s : State P) : run P [] s = s := rfl

theorem run_append (xs ys : List Action) (s : State P) :
    run P (xs ++ ys) s = run P ys (run P xs s) := by
  simp [run, List.foldl_append]

theorem cloudPosts_keep (clouds : List (Cloud × ℚ)) (s : State P)
    (hc : s.tangoColor_ = Image.none) :
    (run P (cloudPosts clouds) s).tangoColor_ = Image.none ∧
      (run P (cloudPosts clouds) s).dataReady_ = s.dataReady_ := by
  induction clouds generalizing s with
  | nil => exact ⟨hc, rfl⟩
  | cons c rest ih =>
    have h1 : (cloudReceived c.1 c.2 s).tangoColor_ = Image.none := by
      unfold cloudReceived
      split <;> simp [hc, Image.none_empty]
    have h2 : (cloudReceived c.1 c.2 s).dataReady_ = s.dataReady_ := by
      unfold cloudReceived
      split <;> simp [hc, Image.none_empty]
    have := ih (cloudReceived c.1 c.2 s) h1
    simpa [cloudPosts, run_cons, Action.apply, h2] using this

theorem colorPosts_keep (frames : List (Image × Int × ℚ)) (s : State P)
    (hc : s.cloud_ = []) : run P (colorPosts frames) s = s := by
  induction frames generalizing s with
  | nil => rfl
  | cons f rest ih =>
    have h1 : rgbReceived f.1 f.2.1 f.2.2 s = s := by
      unfold rgbReceived
      simp [hc]
    simpa [colorPosts, run_cons, Action.apply, h1] using ih s hc

theorem waitForPair_timeout (s : State P) (h : s.dataReady_ = 0) :
    (waitForPair s).1 = none ∧ (waitForPair s).2.slotsReset ∧
      (waitForPair s).2.dataReady_ = 0 := by
  refine ⟨by simp [waitForPair, h], ?_, ?_⟩
  · simp [waitForPair, h, State.slotsReset, State.clearSlots]
  · unfold waitForPair
    simp only [h, if_true]
    split <;> simp [State.clearSlots, State.post, h]

theorem captureImage_timeout (tango : TangoService) (s : State P) (h : s.dataReady_ = 0) :
    (captureImage P tango s).1 = SensorData.default P ∧
      (captureImage P tango s).2 = (waitForPair s).2 := by
  have hw := (waitForPair_timeout s h).1
  unfold captureImage
  rw [hw]
  exact ⟨rfl, rfl⟩

/-- C3: from empty slots and a ready count of 0, after any sequence of point-sample
posts only, or of colour-frame posts only, the ready count is still 0, so the wait
in `captureImage` times out; after it both slots are empty with timestamps and
colour type reset to 0, and `captureImage` returns the empty `SensorData`. -/
theorem C3_single_stream_times_out (tango : TangoService) (s : State P)
    (clouds : List (Cloud × ℚ)) (frames : List (Image × Int × ℚ)) :
    ((run P (cloudPosts clouds) s.emptied).dataReady_ = 0 ∧
      (waitForPair (run P (cloudPosts clouds) s.emptied)).1 = none ∧
      (captureImage P tango (run P (cloudPosts clouds) s.emptied)).2.slotsReset ∧
      (captureImage P tango (run P (cloudPosts clouds) s.emptied)).1 = SensorData.default P) ∧
    ((run P (colorPosts frames) s.emptied).dataReady_ = 0 ∧
      (waitForPair (run P (colorPosts frames) s.emptied)).1 = none ∧
      (captureImage P tango (run P (colorPosts frames) s.emptied)).2.slotsReset ∧
      (captureImage P tango (run P (colorPosts frames) s.emptied)).1 = SensorData.default P) := by
  have hc := cloudPosts_keep clouds s.emptied rfl
  have hd : (run P (cloudPosts clouds) s.emptied).dataReady_ = 0 := hc.2
  have hf : run P (colorPosts frames) s.emptied = s.emptied := colorPosts_keep frames _ rfl
  have hd2 : (run P (colorPosts frames) s.emptied).dataReady_ = 0 := by rw [hf]; rfl
  refine ⟨⟨hd, (waitForPair_timeout _ hd).1, ?_, (captureImage_timeout tango _ hd).1⟩,
    ⟨hd2, (waitForPair_timeout _ hd2).1, ?_, (captureImage_timeout tango _ hd2).1⟩⟩
  · rw [(captureImage_timeout tango _ hd).2]; exact (waitForPair_timeout _ hd).2.1
  · rw [(captureImage_timeout tango _ hd2).2]; exact (waitForPair_timeout _ hd2).2.1

theorem processPair_slots (tango : TangoService) (pair : Pair) (s : State P) :
    (processPair P tango pair s).2 = s ∨
      (processPair P tango pair s).2 = { s with seqID := s.seqID + 1 } := by
  unfold processPair
  split
  · exact Or.inl rfl
  · dsimp only
    split_ifs <;> first | exact Or.inl rfl | exact Or.inr rfl

theorem captureImage_state (tango : TangoService) (s : State P) :
    (captureImage P tango s).2 = (waitForPair s).2 ∨
      (captureImage P tango s).2 =
        { (waitForPair s).2 with seqID := (waitForPair s).2.seqID + 1 } := by
  unfold captureImage
  split
  · exact Or.inl rfl
  · exact processPair_slots tango _ _

theorem waitForPair_inv (s : State P) :
    (waitForPair s).2.slotsReset ∧ (waitForPair s).2.dataReady_ = s.dataReady_ - 1 := by
  unfold waitForPair
  split
  · rename_i h
    refine ⟨by simp [State.slotsReset, State.clearSlots], ?_⟩
    split <;> simp [State.clearSlots, State.post, h]
  · exact ⟨by simp [State.slotsReset, State.clearSlots], by simp [State.clearSlots]⟩

theorem captureImage_inv (tango : TangoService) (s : State P) :
    (captureImage P tango s).2.slotsReset ∧
      (captureImage P tango s).2.dataReady_ = s.dataReady_ - 1 := by
  have hw := waitForPair_inv s
  rcases captureImage_state tango s with h | h
  · rw [h]; exact hw
  · rw [h]; exact hw

theorem slotsReset_inv (s : State P) (h : s.slotsReset) (hd : s.dataReady_ = 0) :
    s.rendezvousInv := by
  obtain ⟨h1, _, h3, _, _⟩ := h
  simp [State.rendezvousInv, h1, h3, hd, Image.none_empty]

theorem mainLoop_slots (tango : TangoService) (s : State P) :
    (mainLoop P tango s).cloud_ = (if s.tango_config_ then (captureImage P tango s).2.cloud_ else s.cloud_) ∧
    (mainLoop P tango s).tangoColor_ = (if s.tango_config_ then (captureImage P tango s).2.tangoColor_ else s.tangoColor_) ∧
    (mainLoop P tango s).dataReady_ = (if s.tango_config_ then (captureImage P tango s).2.dataReady_ else s.dataReady_) := by
  unfold mainLoop
  split
  · dsimp only
    split
    · simp [State.post]
    · split <;> simp [State.post]
  · simp [State.kill]

theorem apply_inv (a : Action) (ha : a.cloudNonEmpty) (s : State P) (h : s.rendezvousInv) :
    (a.apply P s).rendezvousInv := by
  obtain ⟨h1, h2⟩ := h
  cases a with
  | cloudReceived cloud ts =>
    have hc : cloud ≠ [] := ha
    unfold Action.apply cloudReceived State.rendezvousInv
    by_cases hr : s.isRunning = true
    · by_cases he : s.tangoColor_.empty = true
      · simp [hr, he, hc, h2]
      · have hne : s.cloud_ ≠ [] := h1 (by simpa using he)
        simp [hr, he, hc, h2, hne]
    · simp [hr]; exact ⟨h1, h2⟩
  | rgbReceived img type ts =>
    show (rgbReceived img type ts s).rendezvousInv
    by_cases hr : s.isRunning = true
    · by_cases hcl : s.cloud_ = []
      · have hs : rgbReceived img type ts s = s := by simp [rgbReceived, hcl]
        rw [hs]; exact ⟨h1, h2⟩
      · by_cases hi : img.empty = true
        · have hs : rgbReceived img type ts s = s := by simp [rgbReceived, hi]
          rw [hs]; exact ⟨h1, h2⟩
        · unfold rgbReceived State.rendezvousInv
          by_cases he : s.tangoColor_.empty = true
          · simp [hr, hcl, hi, he, h2]
          · simp [hr, hcl, hi, he, h2]
    · have hs : rgbReceived img type ts s = s := by simp [rgbReceived, hr]
      rw [hs]; exact ⟨h1, h2⟩
  | captureImage tango =>
    have hd : s.dataReady_ ≤ 1 := by rw [h2]; split <;> simp
    have hc := captureImage_inv tango s
    show ((captureImage P tango s).2).rendezvousInv
    exact slotsReset_inv _ hc.1 (by rw [hc.2]; omega)
  | mainLoop tango =>
    have hd : s.dataReady_ ≤ 1 := by rw [h2]; split <;> simp
    have hc := captureImage_inv tango s
    have hm := mainLoop_slots tango s
    have hi := slotsReset_inv _ hc.1 (by rw [hc.2]; omega)
    unfold Action.apply
    by_cases ht : s.tango_config_ = true
    · simp only [ht, if_true] at hm
      unfold State.rendezvousInv at hi ⊢
      rw [hm.1, hm.2.1, hm.2.2]; exact hi
    · simp only [ht] at hm
      unfold State.rendezvousInv
      simp only [Bool.false_eq_true, if_false] at hm
      rw [hm.1, hm.2.1, hm.2.2]; exact ⟨h1, h2⟩

/-- With point clouds that are never empty, every interleaving of the two producers
and the consumer keeps the rendezvous invariant. -/
theorem run_rendezvousInv (acts : List Action) (hacts : ∀ a ∈ acts, a.cloudNonEmpty)
    (s : State P) (h : s.rendezvousInv) : (run P acts s).rendezvousInv := by
  induction acts generalizing s with
  | nil => exact h
  | cons a rest ih =>
    rw [run_cons]
    exact ih (fun b hb => hacts b (List.mem_cons_of_mem _ hb)) _
      (apply_inv a (hacts a (List.mem_cons_self _ _)) s h)

/-- Under the rendezvous invariant a successful wait hands out two non-empty frames
and leaves both slots reset with a ready count of 0. -/
theorem waitForPair_success (s : State P) (h : s.rendezvousInv) (hd : s.dataReady_ ≠ 0) :
    ∃ pair, (waitForPair s).1 = some pair ∧ pair.cloud ≠ [] ∧ pair.tangoImage.empty = false ∧
      (waitForPair s).2.slotsReset ∧ (waitForPair s).2.dataReady_ = 0 := by
  obtain ⟨h1, h2⟩ := h
  have he : s.tangoColor_.empty = false := by
    by_contra hne
    simp only [Bool.not_eq_false] at hne
    rw [hne] at h2; simp at h2; exact hd h2
  have hone : s.dataReady_ = 1 := by rw [h2, he]; simp
  refine ⟨⟨s.cloud_, s.cloudStamp_, s.tangoColor_, s.tangoColorStamp_, s.tangoColorType_⟩,
    ?_, h1 he, he, (waitForPair_inv s).1, by rw [(waitForPair_inv s).2, hone]⟩
  simp [waitForPair, hd]

/-- C2: a point cloud without points breaks the one-signal-per-pair rule.  After a
regular cloud and colour frame, a cloud with no point empties the point slot
while the ready count stays 1; the next cloud raises the signal again, to 2.  The
wait after the third post succeeds and hands out an empty point cloud, and after
the fourth post a second wait succeeds on two empty frames. -/
theorem C2_empty_cloud_breaks_ready_signal :
    (run refPlatform (emptyCloudTrace.take 3) startedCamera).dataReady_ = 1 ∧
    (run refPlatform (emptyCloudTrace.take 3) startedCamera).cloud_ = [] ∧
    (waitForPair (run refPlatform (emptyCloudTrace.take 3) startedCamera)).1 =
      some ⟨[], 3, sampleImage, 2, TANGO_HAL_PIXEL_FORMAT_RGBA_8888⟩ ∧
    (run refPlatform emptyCloudTrace startedCamera).dataReady_ = 2 ∧
    (waitForPair (run refPlatform emptyCloudTrace startedCamera)).1 =
      some ⟨sampleCloud, 4, sampleImage, 2, TANGO_HAL_PIXEL_FORMAT_RGBA_8888⟩ ∧
    (waitForPair (waitForPair (run refPlatform emptyCloudTrace startedCamera)).2).1 =
      some ⟨[], 0, Image.none, 0, 0⟩ := by
  decide!

/-- C8 (as stated, refuted): with the thread running, both slots empty and a non-empty
image, `rgbReceived` stores nothing: colour slot, its timestamp and type keep their
reset values. -/
theorem C8_color_frame_dropped_without_cloud :
    startedCamera.isRunning = true ∧ startedCamera.cloud_ = [] ∧
    sampleImage.empty = false ∧
    (rgbReceived sampleImage TANGO_HAL_PIXEL_FORMAT_RGBA_8888 7 startedCamera).tangoColor_ =
      Image.none ∧
    (rgbReceived sampleImage TANGO_HAL_PIXEL_FORMAT_RGBA_8888 7 startedCamera).tangoColorStamp_ =
      0 ∧
    (rgbReceived sampleImage TANGO_HAL_PIXEL_FORMAT_RGBA_8888 7 startedCamera).tangoColor_ ≠
      sampleImage := by
  decide!

/-- C8 (amended): while running, with a non-empty image, `rgbReceived` stores image,
timestamp and type in the colour slot (overwriting a prior frame) when the point
slot is non-empty, and raises the ready signal exactly when the colour slot was
empty before; when the point slot is empty the frame is dropped and the state is
unchanged.  `cloudReceived` always stores its cloud and timestamp, and raises the
signal exactly when the point slot was empty and the colour slot is filled. -/
theorem C8_rgbReceived_stores_beside_a_cloud (s : State P) (tangoImage : Image) (type : Int)
    (timestamp : ℚ) (cloud : Cloud) (cloudStamp : ℚ)
    (hrun : s.isRunning = true) (himg : tangoImage.empty = false) :
    (s.cloud_ ≠ [] →
      (rgbReceived tangoImage type timestamp s).tangoColor_ = tangoImage ∧
      (rgbReceived tangoImage type timestamp s).tangoColorStamp_ = timestamp ∧
      (rgbReceived tangoImage type timestamp s).tangoColorType_ = type ∧
      (rgbReceived tangoImage type timestamp s).cloud_ = s.cloud_ ∧
      (rgbReceived tangoImage type timestamp s).cloudStamp_ = s.cloudStamp_ ∧
      (rgbReceived tangoImage type timestamp s).dataReady_ =
        s.dataReady_ + (if s.tangoColor_.empty then 1 else 0)) ∧
    (s.cloud_ = [] → rgbReceived tangoImage type timestamp s = s) ∧
    ((cloudReceived cloud cloudStamp s).cloud_ = cloud ∧
      (cloudReceived cloud cloudStamp s).cloudStamp_ = cloudStamp ∧
      (cloudReceived cloud cloudStamp s).tangoColor_ = s.tangoColor_ ∧
      (cloudReceived cloud cloudStamp s).dataReady_ =
        s.dataReady_ + (if s.cloud_.isEmpty && !s.tangoColor_.empty then 1 else 0)) := by
  refine ⟨?_, ?_, ?_⟩
  · intro hc
    unfold rgbReceived
    by_cases he : s.tangoColor_.empty = true <;> simp [hrun, hc, himg, he]
  · intro hc
    simp [rgbReceived, hc]
  · unfold cloudReceived
    by_cases he : s.tangoColor_.empty = true <;>
      by_cases hc : s.cloud_ = [] <;> simp [hrun, hc, he]

theorem C8_rgbReceived_stores_beside_a_cloud_witness :
    (cloudReceived sampleCloud 1 startedCamera).isRunning = true ∧ sampleImage.empty = false ∧
    (rgbReceived sampleImage TANGO_HAL_PIXEL_FORMAT_RGBA_8888 2
      (cloudReceived sampleCloud 1 startedCamera)).tangoColor_ = sampleImage :=
  ⟨by decide!, by decide!,
    ((C8_rgbReceived_stores_beside_a_cloud (cloudReceived sampleCloud 1 startedCamera) sampleImage
      TANGO_HAL_PIXEL_FORMAT_RGBA_8888 2 [] 0 (by decide!) (by decide!)).1 (by decide!)).1⟩

/-! ### Pose resolver -/

theorem getPoseAtTimestamp_eq (tango : TangoService) (timestamp : ℚ) :
    getPoseAtTimestamp P tango timestamp =
      if (tango.getPoseAtTime timestamp).2.status_code ≠ TANGO_POSE_VALID then P.null
      else tangoPoseToTransform P (tango.getPoseAtTime timestamp).2 := rfl

/-- When the returned pose record is not marked valid, `getPoseAtTimestamp` returns the
null transform. -/
theorem getPoseAtTimestamp_invalid (tango : TangoService) (timestamp : ℚ)
    (h : (tango.getPoseAtTime timestamp).2.status_code ≠ TANGO_POSE_VALID) :
    getPoseAtTimestamp P tango timestamp = P.null ∧
      P.isNull (getPoseAtTimestamp P tango timestamp) = true := by
  have : getPoseAtTimestamp P tango timestamp = P.null := by
    rw [getPoseAtTimestamp_eq]; simp [h]
  rw [this]; exact ⟨rfl, P.isNull_null⟩

/-- C9: the error status of the query is only logged.  When `TangoService_getPoseAtTime`
returns `TANGO_ERROR` and the output record reads `TANGO_POSE_VALID`,
`getPoseAtTimestamp` returns the converted record, which is not null. -/
theorem C9_error_status_not_checked :
    (errorStatusService.getPoseAtTime 5).1 = TANGO_ERROR ∧
    (errorStatusService.getPoseAtTime 5).1 ≠ TANGO_SUCCESS ∧
    getPoseAtTimestamp refPlatform errorStatusService 5 =
      tangoPoseToTransform refPlatform (poseData 1 2 3 TANGO_POSE_VALID) ∧
    refPlatform.isNull (getPoseAtTimestamp refPlatform errorStatusService 5) = false :=
  ⟨by decide!, by decide!, rfl, by decide!⟩

/-! ### Capture orchestrator -/

/-- Without a configuration handle (no `init`, or `TangoService_getConfig` returned
null) an iteration of `mainLoop` only kills the thread. -/
theorem mainLoop_without_config (tango : TangoService) (s : State P)
    (h : s.tango_config_ = false) : mainLoop P tango s = s.kill := by
  simp [mainLoop, h]

/-- C10: a failed `init` can leave the camera looking initialised.  When enabling the
depth stream is refused, `init` returns false but keeps the configuration handle;
the next `mainLoop` iteration then runs `captureImage` (the wait times out and a
diagnostic event is posted), posts a lost `OdometryEvent`, and does not kill the
thread. -/
theorem C10_failed_init_still_captures :
    (init depthRefusedInit (CameraTango.new refPlatform 1 false)).1 = false ∧
    afterFailedInit.tango_config_ = true ∧
    afterFailedInit.posted.length = 0 ∧
    (mainLoop refPlatform goodService afterFailedInit).posted.length = 2 ∧
    (mainLoop refPlatform goodService afterFailedInit).posted.any Event.isLost = true ∧
    (mainLoop refPlatform goodService afterFailedInit).thread = ThreadState.running := by
  decide!

theorem waitForPair_none (s : State P) (h : s.dataReady_ = 0) : (waitForPair s).1 = none := by
  simp [waitForPair, h]

theorem waitForPair_some (s : State P) (h : s.dataReady_ ≠ 0) :
    (waitForPair s).1 =
      some ⟨s.cloud_, s.cloudStamp_, s.tangoColor_, s.tangoColorStamp_, s.tangoColorType_⟩ := by
  simp [waitForPair, h]

theorem poseVariances_append (xs ys : List (Event P)) :
    poseVariances (xs ++ ys) = poseVariances xs ++ poseVariances ys := by
  induction xs with
  | nil => rfl
  | cons e rest ih =>
    cases e <;> simp [poseVariances, ih]

theorem waitForPair_frame (s : State P) :
    (waitForPair s).2.firstFrame_ = s.firstFrame_ ∧ (waitForPair s).2.thread = s.thread ∧
      (waitForPair s).2.tango_config_ = s.tango_config_ ∧
      ∃ new, (waitForPair s).2.posted = s.posted ++ new ∧ poseVariances new = [] := by
  unfold waitForPair
  split
  · split
    · exact ⟨rfl, rfl, rfl, [_], rfl, rfl⟩
    · exact ⟨rfl, rfl, rfl, [], by simp [State.clearSlots], rfl⟩
  · exact ⟨rfl, rfl, rfl, [], by simp [State.clearSlots], rfl⟩

theorem captureImage_frame (tango : TangoService) (s : State P) :
    (captureImage P tango s).2.firstFrame_ = s.firstFrame_ ∧
      (captureImage P tango s).2.thread = s.thread ∧
      (captureImage P tango s).2.tango_config_ = s.tango_config_ ∧
      ∃ new, (captureImage P tango s).2.posted = s.posted ++ new ∧ poseVariances new = [] := by
  have hw := waitForPair_frame s
  rcases captureImage_state tango s with h | h <;> rw [h] <;> exact hw

/-- The colour-to-depth transform is null when the relative pose query fails or the
squared norm of the returned pose is above 100000. -/
theorem colorToDepthOf_rejected (tango : TangoService) (rgbStamp cloudStamp : ℚ)
    (h : (tango.calculateRelativePose rgbStamp cloudStamp).1 ≠ TANGO_SUCCESS ∨
      P.getNormSquared (tangoPoseToTransform P (tango.calculateRelativePose rgbStamp cloudStamp).2)
        > 100000) :
    colorToDepthOf P tango rgbStamp cloudStamp = P.null := by
  unfold colorToDepthOf
  by_cases hs : (tango.calculateRelativePose rgbStamp cloudStamp).1 = TANGO_SUCCESS
  · rcases h with h | h
    · exact absurd hs h
    · simp [hs, h]
  · simp [hs]

/-- With a null colour-to-depth transform nothing is projected and `captureImage`
returns the empty `SensorData`, leaving the state as the wait left it. -/
theorem processPair_null_colorToDepth (tango : TangoService) (pair : Pair) (s : State P)
    (h : colorToDepthOf P tango pair.rgbStamp pair.cloudStamp = P.null) :
    processPair P tango pair s = (SensorData.default P, s) := by
  unfold processPair
  split
  · rfl
  · simp [h, P.isNull_null, Raster.none, Raster.empty]

theorem mainLoop_lost (tango : TangoService) (s : State P) (hc : s.tango_config_ = true)
    (hd : P.isNull (captureImage P tango s).1.groundTruth = true) :
    mainLoop P tango s =
      if (captureImage P tango s).2.isKilled then (captureImage P tango s).2
      else (captureImage P tango s).2.post Event.odometryLost := by
  unfold mainLoop
  simp only [hc, if_true, hd, Bool.not_true, Bool.false_eq_true, if_false]
  by_cases hk : (captureImage P tango s).2.isKilled = true <;> simp [hk]

/-- C4 (as stated, refuted): a pair is ready and the relative pose query fails, but the
thread has been killed meanwhile; the iteration posts no event at all, so no lost
estimate. -/
theorem C4_no_lost_estimate_once_killed :
    (pairReady.kill).tango_config_ = true ∧ (pairReady.kill).dataReady_ = 1 ∧
    (relativePoseFails.calculateRelativePose (pairReady.kill).tangoColorStamp_
      (pairReady.kill).cloudStamp_).1 ≠ TANGO_SUCCESS ∧
    (mainLoop refPlatform relativePoseFails pairReady.kill).posted.length = 0 ∧
    (mainLoop refPlatform relativePoseFails pairReady.kill).posted.any Event.isLost = false := by
  decide!

/-- C4 (amended): when the relative colour-to-depth pose query fails, or the returned
pose has a squared norm above 100000, `captureImage` returns the empty
`SensorData`: empty depth raster, empty scan, null pose; `mainLoop` then posts no
pose-bearing event, and it posts a lost estimate unless the thread has been
killed. -/
theorem C4_rejected_relative_pose_yields_no_data (tango : TangoService) (s : State P)
    (hc : s.tango_config_ = true)
    (h : (tango.calculateRelativePose s.tangoColorStamp_ s.cloudStamp_).1 ≠ TANGO_SUCCESS ∨
      P.getNormSquared
        (tangoPoseToTransform P (tango.calculateRelativePose s.tangoColorStamp_ s.cloudStamp_).2)
        > 100000) :
    (captureImage P tango s).1 = SensorData.default P ∧
    (captureImage P tango s).1.depth.empty = true ∧
    (captureImage P tango s).1.scan = [] ∧
    P.isNull (captureImage P tango s).1.groundTruth = true ∧
    poseVariances (mainLoop P tango s).posted = poseVariances s.posted ∧
    mainLoop P tango s =
      if (captureImage P tango s).2.isKilled then (captureImage P tango s).2
      else (captureImage P tango s).2.post Event.odometryLost := by
  have hdata : (captureImage P tango s).1 = SensorData.default P := by
    by_cases hd : s.dataReady_ = 0
    · exact (captureImage_timeout tango s hd).1
    · unfold captureImage
      rw [waitForPair_some s hd]
      dsimp only
      rw [processPair_null_colorToDepth tango _ _ (colorToDepthOf_rejected tango _ _ h)]
  have hnull : P.isNull (captureImage P tango s).1.groundTruth = true := by
    rw [hdata]; exact P.isNull_null
  have hm := mainLoop_lost tango s hc hnull
  obtain ⟨_, _, _, new, hnew, hv⟩ := captureImage_frame tango s
  refine ⟨hdata, by rw [hdata]; rfl, by rw [hdata]; rfl, hnull, ?_, hm⟩
  rw [hm]
  split
  · rw [hnew, poseVariances_append, hv]; simp
  · simp [State.post, hnew, poseVariances_append, hv, poseVariances]

theorem C4_rejected_relative_pose_yields_no_data_witness :
    pairReady.tango_config_ = true ∧ pairReady.dataReady_ = 1 ∧
    (mainLoop refPlatform relativePoseFails pairReady).posted.any Event.isLost = true ∧
    (captureImage refPlatform relativePoseFails pairReady).1.scan = [] :=
  ⟨by decide!, by decide!, by decide!,
    (C4_rejected_relative_pose_yields_no_data relativePoseFails pairReady (by decide!)
      (Or.inl (by decide!))).2.2.1⟩

theorem processPair_groundTruth (tango : TangoService) (pair : Pair) (s : State P) :
    (processPair P tango pair s).1.groundTruth = P.null ∨
      (processPair P tango pair s).1.groundTruth =
        P.mul (P.mul P.rtabmap_world_T_tango_world (getPoseAtTimestamp P tango pair.rgbStamp))
          P.tango_device_T_rtabmap_device := by
  unfold processPair
  split
  · exact Or.inl rfl
  · dsimp only
    split_ifs <;> first | exact Or.inl rfl | exact Or.inr rfl

/-- The pose of the frame returned by `captureImage` is null or the product of the two
fixed convention transforms with the pose resolved at the colour timestamp: the
resolved pose itself is not tested (source lines 621-634). -/
theorem captureImage_groundTruth (tango : TangoService) (s : State P) :
    (captureImage P tango s).1.groundTruth = P.null ∨
      (captureImage P tango s).1.groundTruth =
        P.mul (P.mul P.rtabmap_world_T_tango_world
          (getPoseAtTimestamp P tango s.tangoColorStamp_)) P.tango_device_T_rtabmap_device := by
  by_cases hd : s.dataReady_ = 0
  · left; rw [(captureImage_timeout tango s hd).1]; rfl
  · unfold captureImage
    rw [waitForPair_some s hd]
    exact processPair_groundTruth tango _ _

theorem mainLoop_pose (tango : TangoService) (s : State P) (hc : s.tango_config_ = true)
    (hd : P.isNull (captureImage P tango s).1.groundTruth = false) :
    ∃ data pose,
      (mainLoop P tango s).posted = (captureImage P tango s).2.posted ++
        [Event.odometry data pose (variance s.firstFrame_) (variance s.firstFrame_)] ∧
      (mainLoop P tango s).firstFrame_ = false := by
  unfold mainLoop
  rw [if_pos hc]
  dsimp only
  rw [if_pos (by simp [hd])]
  refine ⟨{ (captureImage P tango s).1 with groundTruth := P.null },
    (captureImage P tango s).1.groundTruth, ?_, rfl⟩
  simp [State.post, (captureImage_frame tango s).1]

theorem tagInv_snoc (firstFrame : Bool) (vs : List (ℚ × ℚ)) (h : tagInv firstFrame vs) :
    tagInv false (vs ++ [(variance firstFrame, variance firstFrame)]) := by
  rcases h with ⟨hf, hv⟩ | ⟨hf, k, hv⟩
  · subst hf hv
    exact Or.inr ⟨rfl, 0, by simp [variance]⟩
  · subst hf hv
    refine Or.inr ⟨rfl, k + 1, ?_⟩
    simp [variance, List.replicate_succ']

theorem cloudReceived_frame (cloud : Cloud) (ts : ℚ) (s : State P) :
    (cloudReceived cloud ts s).posted = s.posted ∧
      (cloudReceived cloud ts s).firstFrame_ = s.firstFrame_ := by
  simp only [cloudReceived]
  split_ifs <;> exact ⟨rfl, rfl⟩

theorem rgbReceived_frame (img : Image) (type : Int) (ts : ℚ) (s : State P) :
    (rgbReceived img type ts s).posted = s.posted ∧
      (rgbReceived img type ts s).firstFrame_ = s.firstFrame_ := by
  simp only [rgbReceived]
  split_ifs <;> exact ⟨rfl, rfl⟩

theorem apply_tagInv (a : Action) (s : State P) (pre evs : List (Event P))
    (hp : s.posted = pre ++ evs) (h : tagInv s.firstFrame_ (poseVariances evs)) :
    ∃ evs', (a.apply P s).posted = pre ++ evs' ∧
      tagInv (a.apply P s).firstFrame_ (poseVariances evs') := by
  cases a with
  | cloudReceived cloud ts =>
    refine ⟨evs, ?_, ?_⟩
    · show (cloudReceived cloud ts s).posted = _
      rw [(cloudReceived_frame cloud ts s).1]; exact hp
    · show tagInv (cloudReceived cloud ts s).firstFrame_ _
      rw [(cloudReceived_frame cloud ts s).2]; exact h
  | rgbReceived img type ts =>
    refine ⟨evs, ?_, ?_⟩
    · show (rgbReceived img type ts s).posted = _
      rw [(rgbReceived_frame img type ts s).1]; exact hp
    · show tagInv (rgbReceived img type ts s).firstFrame_ _
      rw [(rgbReceived_frame img type ts s).2]; exact h
  | captureImage tango =>
    obtain ⟨hf, _, _, new, hnew, hv⟩ := captureImage_frame tango s
    refine ⟨evs ++ new, ?_, ?_⟩
    · show (captureImage P tango s).2.posted = _
      rw [hnew, hp, List.append_assoc]
    · show tagInv (captureImage P tango s).2.firstFrame_ _
      rw [hf, poseVariances_append, hv, List.append_nil]; exact h
  | mainLoop tango =>
    obtain ⟨hf, _, _, new, hnew, hv⟩ := captureImage_frame tango s
    show ∃ evs', (mainLoop P tango s).posted = pre ++ evs' ∧
      tagInv (mainLoop P tango s).firstFrame_ (poseVariances evs')
    by_cases hc : s.tango_config_ = true
    · by_cases hd : P.isNull (captureImage P tango s).1.groundTruth = true
      · rw [mainLoop_lost tango s hc hd]
        split
        · refine ⟨evs ++ new, by rw [hnew, hp, List.append_assoc], ?_⟩
          rw [hf, poseVariances_append, hv, List.append_nil]; exact h
        · refine ⟨evs ++ new ++ [Event.odometryLost], ?_, ?_⟩
          · simp [State.post, hnew, hp]
          · show tagInv (captureImage P tango s).2.firstFrame_ _
            rw [hf, poseVariances_append, poseVariances_append, hv]
            simpa [poseVariances] using h
      · obtain ⟨data, pose, hpost, hff⟩ :=
          mainLoop_pose tango s hc (by simpa using hd)
        refine ⟨evs ++ new ++ [Event.odometry data pose (variance s.firstFrame_)
          (variance s.firstFrame_)], ?_, ?_⟩
        · rw [hpost, hnew, hp]; simp
        · rw [hff, poseVariances_append, poseVariances_append, hv, List.append_nil]
          exact tagInv_snoc _ _ h
    · rw [mainLoop_without_config tango s (by simpa using hc)]
      exact ⟨evs, hp, h⟩

theorem run_tagInv (acts : List Action) (s : State P) (pre evs : List (Event P))
    (hp : s.posted = pre ++ evs) (h : tagInv s.firstFrame_ (poseVariances evs)) :
    ∃ evs', (run P acts s).posted = pre ++ evs' ∧
      tagInv (run P acts s).firstFrame_ (poseVariances evs') := by
  induction acts generalizing s evs with
  | nil => exact ⟨evs, hp, h⟩
  | cons a rest ih =>
    obtain ⟨evs1, hp1, h1⟩ := apply_tagInv a s pre evs hp h
    rw [run_cons]
    exact ih _ evs1 hp1 h1

theorem ite_keeps (l : List (Event P)) (c : Prop) [Decidable c] (a b : Bool × State P)
    (ha : a.2.firstFrame_ = true ∧ a.2.posted = l)
    (hb : b.2.firstFrame_ = true ∧ b.2.posted = l) :
    (if c then a else b).2.firstFrame_ = true ∧ (if c then a else b).2.posted = l := by
  split <;> assumption

theorem init_firstFrame (t : TangoInit) (s : State P) :
    (init t s).2.firstFrame_ = true ∧ (init t s).2.posted = s.posted := by
  have hc : (close s).firstFrame_ = true ∧ (close s).posted = s.posted := by
    unfold close
    dsimp only
    split_ifs <;> exact ⟨rfl, rfl⟩
  unfold init
  generalize close s = s0 at hc ⊢
  dsimp only
  repeat' (first | exact hc | apply ite_keeps)

/-- C5: in every sequence of producer posts, `captureImage` calls and `mainLoop`
iterations after `init`, the first pose-bearing `OdometryEvent` of the session
carries the variance 9999 and every later one carries 0.0001, however many lost
estimates are posted before or in between: the pose-bearing event number `i` of
the session (from 0) has the variances `variance (i = 0)`. -/
theorem C5_first_pose_uninformative_then_confident (t : TangoInit) (s : State P)
    (acts : List Action) (i : Nat) (v : ℚ × ℚ)
    (h : (poseVariances ((run P acts (init t s).2).posted.drop
      (init t s).2.posted.length)).get? i = some v) :
    v = (if i = 0 then (9999, 9999) else (1 / 10000, 1 / 10000)) := by
  obtain ⟨hf, _⟩ := init_firstFrame t s
  obtain ⟨evs, hp, hinv⟩ := run_tagInv acts (init t s).2 (init t s).2.posted [] (by simp)
    (Or.inl ⟨hf, rfl⟩)
  rw [hp, List.drop_left] at h
  rcases hinv with ⟨_, hv⟩ | ⟨_, k, hv⟩
  · rw [hv] at h; simp at h
  · rw [hv] at h
    cases i with
    | zero => simpa using h.symm
    | succ j =>
      simp only [List.get?_cons_succ] at h
      have hm : v ∈ List.replicate k ((1 : ℚ) / 10000, (1 : ℚ) / 10000) := List.get?_mem h
      simpa using List.eq_of_mem_replicate hm

theorem C5_first_pose_uninformative_then_confident_witness :
    poseVariances ((run refPlatform twoCaptures (init goodInit startedCamera).2).posted.drop
      (init goodInit startedCamera).2.posted.length) =
      [(9999, 9999), (1 / 10000, 1 / 10000)] ∧
    ((1 : ℚ) / 10000, (1 : ℚ) / 10000) = (if 1 = 0 then (9999, 9999) else (1 / 10000, 1 / 10000)) :=
  ⟨by decide!,
    C5_first_pose_uninformative_then_confident goodInit startedCamera twoCaptures 1
      (1 / 10000, 1 / 10000) (by decide!)⟩

/-! ### Depth projector -/

theorem projectPoint_depth (colorToDepth : P.Transform) (depthModel : CameraModel P)
    (i : Nat) (p : Vec4f) (st : Projection) :
    (projectPoint P colorToDepth depthModel i p st).depth =
      zwrite depthModel st.depth (transformed P colorToDepth p) := by
  unfold projectPoint zwrite transformed
  dsimp only
  split_ifs <;> rfl

theorem projectFrom_depth (colorToDepth : P.Transform) (depthModel : CameraModel P)
    (cloud : Cloud) (i : Nat) (st : Projection) :
    (projectFrom P colorToDepth depthModel i cloud st).depth =
      cloud.foldl (fun d p => zwrite depthModel d (transformed P colorToDepth p)) st.depth := by
  induction cloud generalizing i st with
  | nil => rfl
  | cons p rest ih =>
    rw [projectFrom, ih, projectPoint_depth]
    rfl

theorem zwrite_shape (depthModel : CameraModel P) (d : Raster) (pt : Point3f) :
    (zwrite depthModel d pt).rows = d.rows ∧ (zwrite depthModel d pt).cols = d.cols := by
  unfold zwrite
  split_ifs <;> exact ⟨rfl, rfl⟩

/-- One raster write, cell by cell: a cell the point lands on ends non-zero, at most the
point's depth and at most a non-zero old value, and holds the old value or the
point's depth; every other cell is unchanged. -/
theorem zwrite_cell (depthModel : CameraModel P) (d : Raster) (pt : Point3f) (r c : Nat) :
    (lands depthModel d.rows d.cols pt r c →
      (zwrite depthModel d pt).cell r c ≠ 0 ∧
      (zwrite depthModel d pt).cell r c ≤ depth_value P pt ∧
      (d.cell r c ≠ 0 → (zwrite depthModel d pt).cell r c ≤ d.cell r c) ∧
      ((zwrite depthModel d pt).cell r c = d.cell r c ∨
        (zwrite depthModel d pt).cell r c = depth_value P pt)) ∧
    (¬ lands depthModel d.rows d.cols pt r c →
      (zwrite depthModel d pt).cell r c = d.cell r c) := by
  constructor
  · rintro ⟨hg, hr, hc⟩
    have hdv : depth_value P pt ≠ 0 := hg.2.2.2.2
    unfold zwrite
    rw [if_pos hg, hr, hc]
    by_cases hw : d.cell r c = 0 ∨ d.cell r c > depth_value P pt
    · rw [if_pos hw]
      have hcell : (d.write r c (depth_value P pt)).cell r c = depth_value P pt := by
        simp [Raster.write]
      rw [hcell]
      refine ⟨hdv, le_refl _, ?_, Or.inr rfl⟩
      intro h0
      rcases hw with hw | hw
      · exact absurd hw h0
      · exact le_of_lt hw
    · rw [if_neg hw]
      have h0 : d.cell r c ≠ 0 := fun h => hw (Or.inl h)
      have hle : d.cell r c ≤ depth_value P pt := by
        by_contra hlt
        exact hw (Or.inr (lt_of_not_ge hlt))
      exact ⟨h0, hle, fun _ => le_refl _, Or.inl rfl⟩
  · intro hn
    unfold zwrite
    by_cases hg : 0 ≤ pixel_x depthModel pt ∧ pixel_x depthModel pt < d.cols ∧
        0 < pixel_y depthModel pt ∧ pixel_y depthModel pt < d.rows ∧ depth_value P pt ≠ 0
    · rw [if_pos hg]
      split_ifs
      · have hne : ¬ (r = (pixel_y depthModel pt).toNat ∧ c = (pixel_x depthModel pt).toNat) :=
          fun h => hn ⟨hg, h.1.symm, h.2.symm⟩
        simp [Raster.write, hne]
      · rfl
    · rw [if_neg hg]

/-- The z-buffer after a whole cloud, cell by cell, from any starting raster. -/
theorem zfold_cell (colorToDepth : P.Transform) (depthModel : CameraModel P)
    (cloud : Cloud) (d0 : Raster) (r c : Nat) :
    ((cloud.foldl (fun d p => zwrite depthModel d (transformed P colorToDepth p)) d0).rows
        = d0.rows ∧
      (cloud.foldl (fun d p => zwrite depthModel d (transformed P colorToDepth p)) d0).cols
        = d0.cols) ∧
    ((cloud.foldl (fun d p => zwrite depthModel d (transformed P colorToDepth p)) d0).cell r c
        = d0.cell r c ∨
      ∃ p ∈ cloud, lands depthModel d0.rows d0.cols (transformed P colorToDepth p) r c ∧
        (cloud.foldl (fun d p => zwrite depthModel d (transformed P colorToDepth p)) d0).cell r c
          = depth_value P (transformed P colorToDepth p)) ∧
    (∀ p ∈ cloud, lands depthModel d0.rows d0.cols (transformed P colorToDepth p) r c →
      (cloud.foldl (fun d p => zwrite depthModel d (transformed P colorToDepth p)) d0).cell r c
          ≠ 0 ∧
        (cloud.foldl (fun d p => zwrite depthModel d (transformed P colorToDepth p)) d0).cell r c
          ≤ depth_value P (transformed P colorToDepth p)) ∧
    (d0.cell r c ≠ 0 →
      (cloud.foldl (fun d p => zwrite depthModel d (transformed P colorToDepth p)) d0).cell r c
          ≠ 0 ∧
        (cloud.foldl (fun d p => zwrite depthModel d (transformed P colorToDepth p)) d0).cell r c
          ≤ d0.cell r c) := by
  induction cloud generalizing d0 with
  | nil =>
    exact ⟨⟨rfl, rfl⟩, Or.inl rfl, fun p hp => absurd hp (List.not_mem_nil p),
      fun h => ⟨h, le_refl _⟩⟩
  | cons q rest ih =>
    rw [List.foldl_cons]
    obtain ⟨hrows, hcols⟩ := zwrite_shape depthModel d0 (transformed P colorToDepth q)
    obtain ⟨⟨ihr, ihc⟩, ih1, ih2, ih3⟩ :=
      ih (zwrite depthModel d0 (transformed P colorToDepth q))
    rw [hrows, hcols] at ih1 ih2
    obtain ⟨zl, zn⟩ := zwrite_cell depthModel d0 (transformed P colorToDepth q) r c
    refine ⟨⟨by rw [ihr, hrows], by rw [ihc, hcols]⟩, ?_, ?_, ?_⟩
    · rcases ih1 with h | ⟨p, hp, hl, hv⟩
      · by_cases hq : lands depthModel d0.rows d0.cols (transformed P colorToDepth q) r c
        · rcases (zl hq).2.2.2 with h' | h'
          · exact Or.inl (h.trans h')
          · exact Or.inr ⟨q, List.mem_cons_self _ _, hq, h.trans h'⟩
        · exact Or.inl (h.trans (zn hq))
      · exact Or.inr ⟨p, List.mem_cons_of_mem _ hp, hl, hv⟩
    · intro p hp hl
      rcases List.mem_cons.mp hp with rfl | hp
      · obtain ⟨z0, zle, _, _⟩ := zl hl
        obtain ⟨k0, kle⟩ := ih3 z0
        exact ⟨k0, le_trans kle zle⟩
      · exact ih2 p hp hl
    · intro h0
      by_cases hq : lands depthModel d0.rows d0.cols (transformed P colorToDepth q) r c
      · obtain ⟨z0, _, zle, _⟩ := zl hq
        obtain ⟨k0, kle⟩ := ih3 z0
        exact ⟨k0, le_trans kle (zle h0)⟩
      · have hz := zn hq
        obtain ⟨k0, kle⟩ := ih3 (by rw [hz]; exact h0)
        exact ⟨k0, by rw [hz] at kle; exact kle⟩

theorem projectionLoop_depth (model_ : CameraModel P) (colorToDepth : P.Transform)
    (cloud : Cloud) :
    (projectionLoop P model_ colorToDepth cloud).depth =
      cloud.foldl (fun d p => zwrite (model_.scaled (1 / 8)) d (transformed P colorToDepth p))
        (Raster.zeros (model_.imageHeight / 8) (model_.imageWidth / 8)) := by
  unfold projectionLoop
  exact projectFrom_depth colorToDepth _ cloud 0 _

theorem lands_iff_projectsTo (depthModel : CameraModel P) (rows cols : Nat) (pt : Point3f)
    (r c : Nat) (hr : 1 ≤ r) (hr2 : r < rows) (hc : c < cols) :
    lands depthModel rows cols pt r c ↔ projectsTo depthModel pt r c := by
  unfold lands projectsTo
  constructor
  · rintro ⟨⟨hx0, _, hy0, _, hdv⟩, hy, hx⟩
    refine ⟨?_, ?_, hdv⟩
    · rw [← hy]; exact (Int.toNat_of_nonneg (le_of_lt hy0)).symm
    · rw [← hx]; exact (Int.toNat_of_nonneg hx0).symm
  · rintro ⟨hy, hx, hdv⟩
    rw [hy, hx]
    refine ⟨⟨?_, ?_, ?_, ?_, hdv⟩, ?_, ?_⟩ <;> simp <;> omega

/-- The raster of the projection loop, cell by cell, in terms of the test the code
applies (`lands`): every cell is 0 or the quantized depth of a point that lands on
it, and it is non-zero and at most the depth of every point that lands on it. -/
theorem projectionLoop_cell (model_ : CameraModel P) (colorToDepth : P.Transform)
    (cloud : Cloud) (r c : Nat) :
    ((projectionLoop P model_ colorToDepth cloud).depth.rows = model_.imageHeight / 8 ∧
      (projectionLoop P model_ colorToDepth cloud).depth.cols = model_.imageWidth / 8) ∧
    ((projectionLoop P model_ colorToDepth cloud).depth.cell r c = 0 ∨
      ∃ p ∈ cloud,
        lands (model_.scaled (1 / 8)) (model_.imageHeight / 8) (model_.imageWidth / 8)
          (transformed P colorToDepth p) r c ∧
        (projectionLoop P model_ colorToDepth cloud).depth.cell r c =
          depth_value P (transformed P colorToDepth p)) ∧
    (∀ p ∈ cloud,
      lands (model_.scaled (1 / 8)) (model_.imageHeight / 8) (model_.imageWidth / 8)
          (transformed P colorToDepth p) r c →
        (projectionLoop P model_ colorToDepth cloud).depth.cell r c ≠ 0 ∧
        (projectionLoop P model_ colorToDepth cloud).depth.cell r c ≤
          depth_value P (transformed P colorToDepth p)) := by
  rw [projectionLoop_depth]
  obtain ⟨hs, h1, h2, _⟩ := zfold_cell colorToDepth (model_.scaled (1 / 8)) cloud
    (Raster.zeros (model_.imageHeight / 8) (model_.imageWidth / 8)) r c
  exact ⟨hs, h1, h2⟩

/-- The raster does not depend on the order of the points. -/
theorem projectionLoop_depth_perm (model_ : CameraModel P) (colorToDepth : P.Transform)
    (cloud₁ cloud₂ : Cloud) (h : cloud₁.Perm cloud₂) (r c : Nat) :
    (projectionLoop P model_ colorToDepth cloud₁).depth.cell r c =
      (projectionLoop P model_ colorToDepth cloud₂).depth.cell r c := by
  obtain ⟨_, a1, a2⟩ := projectionLoop_cell model_ colorToDepth cloud₁ r c
  obtain ⟨_, b1, b2⟩ := projectionLoop_cell model_ colorToDepth cloud₂ r c
  rcases a1 with ha | ⟨p, hp, hl, hv⟩
  · rcases b1 with hb | ⟨q, hq, hl, _⟩
    · rw [ha, hb]
    · exact absurd ha (a2 q (h.mem_iff.mpr hq) hl).1
  · rcases b1 with hb | ⟨q, hq, hl', hv'⟩
    · exact absurd hb (b2 p (h.mem_iff.mp hp) hl).1
    · have h1 := (a2 q (h.mem_iff.mpr hq) hl').2
      have h2 := (b2 p (h.mem_iff.mp hp) hl).2
      rw [← hv'] at h1
      rw [← hv] at h2
      exact le_antisymm h1 h2

/-- C1: a point whose computed row is 0 is never stored.  With fx = fy = 100,
cx = cy = 50 on a 100 x 100 image (a 12 x 12 raster) and no offset between the
cameras, the point (0, -1, 2) has the computed pixel (column 6, row 0) and the
quantized depth 2000, and it is the only point; cell (row 0, column 6) is left
at 0.  The same holds beside a farther point of the same pixel. -/
theorem C1_row_zero_point_not_stored :
    pixel_x (model100.scaled (1 / 8)) (transformed refPlatform Matrix34.identity ⟨0, -1, 2, 1⟩)
      = 6 ∧
    pixel_y (model100.scaled (1 / 8)) (transformed refPlatform Matrix34.identity ⟨0, -1, 2, 1⟩)
      = 0 ∧
    depth_value refPlatform (transformed refPlatform Matrix34.identity ⟨0, -1, 2, 1⟩) = 2000 ∧
    (projectionLoop refPlatform model100 Matrix34.identity [⟨0, -1, 2, 1⟩]).depth.rows = 12 ∧
    (projectionLoop refPlatform model100 Matrix34.identity [⟨0, -1, 2, 1⟩]).depth.cols = 12 ∧
    (projectionLoop refPlatform model100 Matrix34.identity [⟨0, -1, 2, 1⟩]).depth.cell 0 6 = 0 ∧
    (projectionLoop refPlatform model100 Matrix34.identity
      [⟨0, -1, 2, 1⟩, ⟨0, -2, 4, 1⟩]).depth.cell 0 6 = 0 ∧
    (projectionLoop refPlatform model100
      Matrix34.identity [⟨1, 0, 2, 1⟩, ⟨-1, 0, 2, 1⟩]).depth.cell 6 0 = 2000 := by
  decide!

/-- The raster in terms of the pixels the code computes: in every row but row 0 a cell
is non-zero exactly when some point with a non-zero `depth_value` has it as
(`pixel_y`, `pixel_x`), and then it holds the smallest `depth_value` of these
points. -/
theorem raster_cells_by_computed_pixels (model_ : CameraModel P) (colorToDepth : P.Transform)
    (cloud : Cloud) (r c : Nat)
    (hr : 1 ≤ r) (hr2 : r < model_.imageHeight / 8) (hc : c < model_.imageWidth / 8) :
    ((projectionLoop P model_ colorToDepth cloud).depth.rows = model_.imageHeight / 8 ∧
      (projectionLoop P model_ colorToDepth cloud).depth.cols = model_.imageWidth / 8) ∧
    ((projectionLoop P model_ colorToDepth cloud).depth.cell r c ≠ 0 ↔
      ∃ p ∈ cloud, projectsTo (model_.scaled (1 / 8)) (transformed P colorToDepth p) r c) ∧
    ((projectionLoop P model_ colorToDepth cloud).depth.cell r c ≠ 0 →
      ∃ p ∈ cloud, projectsTo (model_.scaled (1 / 8)) (transformed P colorToDepth p) r c ∧
        (projectionLoop P model_ colorToDepth cloud).depth.cell r c =
          depth_value P (transformed P colorToDepth p)) ∧
    (∀ p ∈ cloud, projectsTo (model_.scaled (1 / 8)) (transformed P colorToDepth p) r c →
      (projectionLoop P model_ colorToDepth cloud).depth.cell r c ≤
        depth_value P (transformed P colorToDepth p)) ∧
    ((∀ p ∈ cloud, depth_value P (transformed P colorToDepth p) = 2000) →
      ((projectionLoop P model_ colorToDepth cloud).depth.cell r c = 2000 ↔
        ∃ p ∈ cloud, projectsTo (model_.scaled (1 / 8)) (transformed P colorToDepth p) r c) ∧
      ((projectionLoop P model_ colorToDepth cloud).depth.cell r c = 0 ∨
        (projectionLoop P model_ colorToDepth cloud).depth.cell r c = 2000)) := by
  obtain ⟨hs, h1, h2⟩ := projectionLoop_cell model_ colorToDepth cloud r c
  have hiff := fun pt => lands_iff_projectsTo (model_.scaled (1 / 8)) (model_.imageHeight / 8)
    (model_.imageWidth / 8) pt r c hr hr2 hc
  have hex : (projectionLoop P model_ colorToDepth cloud).depth.cell r c ≠ 0 →
      ∃ p ∈ cloud, projectsTo (model_.scaled (1 / 8)) (transformed P colorToDepth p) r c ∧
        (projectionLoop P model_ colorToDepth cloud).depth.cell r c =
          depth_value P (transformed P colorToDepth p) := by
    intro hne
    rcases h1 with h0 | ⟨p, hp, hl, hv⟩
    · exact absurd h0 hne
    · exact ⟨p, hp, (hiff _).mp hl, hv⟩
  have hne : (∃ p ∈ cloud, projectsTo (model_.scaled (1 / 8)) (transformed P colorToDepth p) r c) →
      (projectionLoop P model_ colorToDepth cloud).depth.cell r c ≠ 0 := by
    rintro ⟨p, hp, hpt⟩
    exact (h2 p hp ((hiff _).mpr hpt)).1
  refine ⟨hs, ⟨fun h => ?_, hne⟩, hex, fun p hp hpt => (h2 p hp ((hiff _).mpr hpt)).2, ?_⟩
  · obtain ⟨p, hp, hpt, _⟩ := hex h
    exact ⟨p, hp, hpt⟩
  · intro hall
    constructor
    · constructor
      · intro h2000
        obtain ⟨p, hp, hpt, _⟩ := hex (by rw [h2000]; decide)
        exact ⟨p, hp, hpt⟩
      · intro hex2
        obtain ⟨p, hp, _, hv⟩ := hex (hne hex2)
        rw [hv, hall p hp]
    · by_cases h0 : (projectionLoop P model_ colorToDepth cloud).depth.cell r c = 0
      · exact Or.inl h0
      · obtain ⟨p, hp, _, hv⟩ := hex h0
        exact Or.inr (by rw [hv, hall p hp])

theorem pixel_x_eq_pinholeColumn (model_ : CameraModel P) (pt : Point3f) :
    pixel_x (model_.scaled (1 / 8)) pt = pinholeColumn model_ pt := by
  have hf : model_.fx * (1 / 8) = model_.fx / 8 := by ring
  have hc : model_.cx * (1 / 8) = model_.cx / 8 := by ring
  unfold pixel_x pinholeColumn CameraModel.scaled fdiv dmul dadd
  simp only [hf, hc]
  by_cases hz : pt.z = 0
  · simp [hz]
  · simp only [hz, if_false]
    cases binary32.round (pt.x / pt.z) with
    | none => rfl
    | some ratio =>
      simp only [Option.bind]
      cases binary64.round (model_.fx / 8 * ratio) <;> rfl

theorem pixel_y_eq_pinholeRow (model_ : CameraModel P) (pt : Point3f) :
    pixel_y (model_.scaled (1 / 8)) pt = pinholeRow model_ pt := by
  have hf : model_.fy * (1 / 8) = model_.fy / 8 := by ring
  have hc : model_.cy * (1 / 8) = model_.cy / 8 := by ring
  unfold pixel_y pinholeRow CameraModel.scaled fdiv dmul dadd
  simp only [hf, hc]
  by_cases hz : pt.z = 0
  · simp [hz]
  · simp only [hz, if_false]
    cases binary32.round (pt.y / pt.z) with
    | none => rfl
    | some ratio =>
      simp only [Option.bind]
      cases binary64.round (model_.fy / 8 * ratio) <;> rfl

theorem depth_value_eq_quantizedDepth (pt : Point3f) :
    depth_value P pt = quantizedDepth P pt := rfl

theorem projectsTo_iff_claimedCell (model_ : CameraModel P) (pt : Point3f) (r c : Nat) :
    projectsTo (model_.scaled (1 / 8)) pt r c ↔ claimedCell model_ pt r c := by
  unfold projectsTo claimedCell
  rw [pixel_x_eq_pinholeColumn, pixel_y_eq_pinholeRow, depth_value_eq_quantizedDepth]

/-- The arithmetic of lines 589-591 at a few inputs.  In `float` and `double` the
point (-1, 0, 10) has column 4 and (0, -1, 10) row 4 (the ratio -0.1 is not a
`float`; exact arithmetic would give 5); the `float` nearest 4.1 has the quantized
depth 4100 (its exact product with 1000 is below 4100); at depth 3000000 the
conversion to `unsigned short` is undefined and the platform decides, as does the
conversion to `int` at depth 0. -/
theorem float_arithmetic_examples :
    pixel_x (model100.scaled (1 / 8)) ⟨-1, 0, 10⟩ = 4 ∧
    pixel_y (model100.scaled (1 / 8)) ⟨0, -1, 10⟩ = 4 ∧
    binary32.round (41 / 10) = some (8598323 / 2097152) ∧
    toInt ((8598323 / 2097152 : ℚ) * 1000) = 4099 ∧
    depth_value refPlatform ⟨0, 0, 8598323 / 2097152⟩ = 4100 ∧
    (∀ Q : Platform, depth_value Q ⟨0, 0, 3000000⟩ = Q.undefinedUShort 3000000 % 65536) ∧
    (∀ (Q : Platform) (m : CameraModel Q),
      pixel_x m ⟨1, 0, 0⟩ = (Q.undefinedInt m.fx m.cx 1 0 + 2147483648) % 4294967296 - 2147483648) := by
  refine ⟨by decide!, by decide!, by decide!, by decide!, by decide!, ?_, ?_⟩
  · intro Q
    have h : binary32.round (3000000 * 1000) = some 3000000000 := by decide!
    have h2 : ¬ (0 ≤ toInt 3000000000 ∧ toInt 3000000000 ≤ 65535) := by decide!
    simp only [depth_value, fmul, toUShort, h, h2, if_false]
  · intro Q m
    simp [pixel_x, fdiv, dmul, dadd, toInt32]

/-- C6 (as stated, refuted): a point with positive depth inside the raster bounds that
leaves no non-zero cell.  With fx = fy = 100, cx = cy = 50 on a 100 x 100 image and
no offset between the cameras, the point (0, 0, 1/2048) has positive depth and the
pixel (column 6, row 6) of the 12 x 12 raster, but its quantized depth is 0 and
cell (6, 6) stays 0. -/
theorem C6_positive_depth_point_leaves_no_cell :
    0 < (transformed refPlatform Matrix34.identity ⟨0, 0, 1 / 2048, 1⟩).z ∧
    pinholeColumn model100 (transformed refPlatform Matrix34.identity ⟨0, 0, 1 / 2048, 1⟩)
      = 6 ∧
    pinholeRow model100 (transformed refPlatform Matrix34.identity ⟨0, 0, 1 / 2048, 1⟩) = 6 ∧
    (projectionLoop refPlatform model100 Matrix34.identity [⟨0, 0, 1 / 2048, 1⟩]).depth.rows
      = 12 ∧
    (projectionLoop refPlatform model100 Matrix34.identity [⟨0, 0, 1 / 2048, 1⟩]).depth.cols
      = 12 ∧
    quantizedDepth refPlatform (transformed refPlatform Matrix34.identity ⟨0, 0, 1 / 2048, 1⟩)
      = 0 ∧
    (projectionLoop refPlatform model100 Matrix34.identity
      [⟨0, 0, 1 / 2048, 1⟩]).depth.cell 6 6 = 0 := by
  decide!

/-- C6 (amended): the raster has one eighth of the image resolution, and in every row
but row 0 a cell is non-zero exactly when some point with a non-zero quantized
depth has that cell as its pixel coordinates, computed by the pinhole model scaled
by 1/8 and truncated (`pinholeRow`, `pinholeColumn`: fx / 8 times x / z plus
cx / 8, in the arithmetic of the code); a non-zero cell holds the quantized depth
of such a point, the smallest among them.  So when every point is at 2000 units,
each such cell holds 2000 or 0. -/
theorem C6_raster_cells_below_row_zero (model_ : CameraModel P) (colorToDepth : P.Transform)
    (cloud : Cloud) (r c : Nat)
    (hr : 1 ≤ r) (hr2 : r < model_.imageHeight / 8) (hc : c < model_.imageWidth / 8) :
    ((projectionLoop P model_ colorToDepth cloud).depth.rows = model_.imageHeight / 8 ∧
      (projectionLoop P model_ colorToDepth cloud).depth.cols = model_.imageWidth / 8) ∧
    ((projectionLoop P model_ colorToDepth cloud).depth.cell r c ≠ 0 ↔
      ∃ p ∈ cloud, claimedCell model_ (transformed P colorToDepth p) r c) ∧
    ((projectionLoop P model_ colorToDepth cloud).depth.cell r c ≠ 0 →
      ∃ p ∈ cloud, claimedCell model_ (transformed P colorToDepth p) r c ∧
        (projectionLoop P model_ colorToDepth cloud).depth.cell r c =
          quantizedDepth P (transformed P colorToDepth p)) ∧
    (∀ p ∈ cloud, claimedCell model_ (transformed P colorToDepth p) r c →
      (projectionLoop P model_ colorToDepth cloud).depth.cell r c ≤
        quantizedDepth P (transformed P colorToDepth p)) ∧
    ((∀ p ∈ cloud, quantizedDepth P (transformed P colorToDepth p) = 2000) →
      ((projectionLoop P model_ colorToDepth cloud).depth.cell r c = 2000 ↔
        ∃ p ∈ cloud, claimedCell model_ (transformed P colorToDepth p) r c) ∧
      ((projectionLoop P model_ colorToDepth cloud).depth.cell r c = 0 ∨
        (projectionLoop P model_ colorToDepth cloud).depth.cell r c = 2000)) := by
  have h := raster_cells_by_computed_pixels model_ colorToDepth cloud r c hr hr2 hc
  simp only [projectsTo_iff_claimedCell, depth_value_eq_quantizedDepth] at h
  exact h

theorem C6_raster_cells_below_row_zero_witness :
    (1 ≤ 3 ∧ 3 < model100.imageHeight / 8 ∧ 4 < model100.imageWidth / 8) ∧
    ((projectionLoop refPlatform model100 Matrix34.identity (planarCloud 1)).depth.cell 3 4 = 0 ∨
      (projectionLoop refPlatform model100 Matrix34.identity (planarCloud 1)).depth.cell 3 4
        = 2000) :=
  ⟨by decide,
    ((C6_raster_cells_below_row_zero model100 Matrix34.identity (planarCloud 1) 3 4
      (by decide) (by decide) (by decide)).2.2.2.2 (by decide!)).2⟩

/-- The scenario of 100 planar points at 2000 units (fx = fy = 100, cx = cy = 50, no
offset between the cameras), evaluated: when the plane covers rows 1 to 10 the
raster is 2000 at exactly the 100 computed pixels; when it covers rows 0 to 9 the
ten points of row 0 are missing. -/
theorem planar_scenario :
    (planarCloud 1).length = 100 ∧
    (∀ r < 12, ∀ c < 12,
      (projectionLoop refPlatform model100 Matrix34.identity (planarCloud 1)).depth.cell r c =
        if 1 ≤ r ∧ r ≤ 10 ∧ 1 ≤ c ∧ c ≤ 10 then 2000 else 0) ∧
    (∀ r < 12, ∀ c < 12,
      (projectionLoop refPlatform model100 Matrix34.identity (planarCloud 0)).depth.cell r c =
        if 1 ≤ r ∧ r ≤ 9 ∧ 1 ≤ c ∧ c ≤ 10 then 2000 else 0) := by
  decide!

/-! ### Scan -/

theorem take_succ_set (l : List Point3f) (k : Nat) (a : Point3f) (h : k < l.length) :
    (l.set k a).take (k + 1) = l.take k ++ [a] := by
  induction l generalizing k with
  | nil => simp at h
  | cons b rest ih =>
    cases k with
    | zero => simp
    | succ j =>
      simp only [List.length_cons, Nat.add_lt_add_iff_right] at h
      simp [ih j h]

theorem projectPoint_scan (colorToDepth : P.Transform) (depthModel : CameraModel P)
    (i : Nat) (p : Vec4f) (st : Projection) :
    ((0 < (transformed P colorToDepth p).z ∧ i % 10 = 0) →
      (projectPoint P colorToDepth depthModel i p st).scanData =
          st.scanData.set st.oi (transformed P colorToDepth p) ∧
        (projectPoint P colorToDepth depthModel i p st).oi = st.oi + 1) ∧
    (¬ (0 < (transformed P colorToDepth p).z ∧ i % 10 = 0) →
      (projectPoint P colorToDepth depthModel i p st).scanData = st.scanData ∧
        (projectPoint P colorToDepth depthModel i p st).oi = st.oi) := by
  unfold projectPoint transformed scanDownsampling
  dsimp only
  constructor
  · intro h
    rw [if_pos h]
    split_ifs <;> exact ⟨rfl, rfl⟩
  · intro h
    rw [if_neg h]
    split_ifs <;> exact ⟨rfl, rfl⟩

theorem expectedScanFrom_cons (colorToDepth : P.Transform) (i : Nat) (p : Vec4f)
    (rest : Cloud) :
    expectedScanFrom P colorToDepth i (p :: rest) =
      if 0 < (transformed P colorToDepth p).z ∧ i % 10 = 0 then
        transformed P colorToDepth p :: expectedScanFrom P colorToDepth (i + 1) rest
      else expectedScanFrom P colorToDepth (i + 1) rest := by
  unfold expectedScanFrom
  by_cases h : 0 < (transformed P colorToDepth p).z ∧ i % 10 = 0
  · simp [List.filter_cons, h.1, h.2]
  · rw [if_neg h]
    have h' : ¬ (i % 10 = 0 ∧ 0 < (transformed P colorToDepth p).z) := fun hh => h ⟨hh.2, hh.1⟩
    simp [List.filter_cons, h']

/-- The scan part of the loop from index `i`: the buffer keeps its size, the points
written are those of the claim appended at `oi`, and `oi` never passes the index. -/
theorem projectFrom_scan (colorToDepth : P.Transform) (depthModel : CameraModel P)
    (cloud : Cloud) (i : Nat) (st : Projection)
    (hlen : i + cloud.length ≤ st.scanData.length) (hoi : st.oi ≤ i) :
    (projectFrom P colorToDepth depthModel i cloud st).scanData.length = st.scanData.length ∧
    (projectFrom P colorToDepth depthModel i cloud st).scanData.take
        (projectFrom P colorToDepth depthModel i cloud st).oi =
      st.scanData.take st.oi ++ expectedScanFrom P colorToDepth i cloud ∧
    (projectFrom P colorToDepth depthModel i cloud st).oi =
      st.oi + (expectedScanFrom P colorToDepth i cloud).length ∧
    (projectFrom P colorToDepth depthModel i cloud st).oi ≤ i + cloud.length := by
  induction cloud generalizing i st with
  | nil => simp [projectFrom, expectedScanFrom, hoi]
  | cons p rest ih =>
    rw [projectFrom, expectedScanFrom_cons]
    simp only [List.length_cons] at hlen
    obtain ⟨hyes, hno⟩ := projectPoint_scan colorToDepth depthModel i p st
    by_cases h : 0 < (transformed P colorToDepth p).z ∧ i % 10 = 0
    · obtain ⟨hsd, hoi'⟩ := hyes h
      have hk : st.oi < st.scanData.length := by omega
      obtain ⟨h1, h2, h3, h4⟩ := ih (i + 1) (projectPoint P colorToDepth depthModel i p st)
        (by rw [hsd, List.length_set]; omega) (by rw [hoi']; omega)
      rw [if_pos h]
      refine ⟨by rw [h1, hsd, List.length_set], ?_, ?_, by simp only [List.length_cons]; omega⟩
      · rw [h2, hoi', hsd, take_succ_set _ _ _ hk]; simp
      · rw [h3, hoi']; simp only [List.length_cons]; omega
    · obtain ⟨hsd, hoi'⟩ := hno h
      obtain ⟨h1, h2, h3, h4⟩ := ih (i + 1) (projectPoint P colorToDepth depthModel i p st)
        (by rw [hsd]; omega) (by rw [hoi']; omega)
      rw [if_neg h]
      refine ⟨by rw [h1, hsd], by rw [h2, hoi', hsd], by rw [h3, hoi'],
        by simp only [List.length_cons]; omega⟩

/-- The scan cut out after the loop is the scan of the claim. -/
theorem projectionLoop_scan (model_ : CameraModel P) (colorToDepth : P.Transform)
    (cloud : Cloud) :
    (projectionLoop P model_ colorToDepth cloud).scan = expectedScan P colorToDepth cloud ∧
    (projectionLoop P model_ colorToDepth cloud).scanData.length = cloud.length := by
  obtain ⟨h1, h2, h3, _⟩ := projectFrom_scan colorToDepth (model_.scaled (1 / 8)) cloud 0
    ⟨Raster.zeros (model_.imageHeight / 8) (model_.imageWidth / 8),
      List.replicate cloud.length ⟨0, 0, 0⟩, 0, 0⟩ (by simp) (le_refl _)
  have e : projectionLoop P model_ colorToDepth cloud =
      projectFrom P colorToDepth (model_.scaled (1 / 8)) 0 cloud
        ⟨Raster.zeros (model_.imageHeight / 8) (model_.imageWidth / 8),
          List.replicate cloud.length ⟨0, 0, 0⟩, 0, 0⟩ := rfl
  rw [e]
  refine ⟨?_, by rw [h1]; simp⟩
  unfold Projection.scan expectedScan
  simp only [List.take_zero, List.nil_append, Nat.zero_add] at h2 h3
  split
  · exact h2
  · rename_i hz
    have : (expectedScanFrom P colorToDepth 0 cloud).length = 0 := by
      rw [← h3]; simpa using hz
    exact (List.length_eq_zero.mp this).symm

theorem ite_scan (c : Prop) [Decidable c] (d : SensorData P) (s1 s2 : State P)
    (E : List Point3f) (n : Nat) (hd : d.scan = E ∧ d.scanInfo.maxPoints = n) :
    (if c then (d, s1) else (SensorData.default P, s2)).1 = SensorData.default P ∨
      (True ∧ (if c then (d, s1) else (SensorData.default P, s2)).1.scan = E ∧
        (if c then (d, s1) else (SensorData.default P, s2)).1.scanInfo.maxPoints = n) := by
  split
  · exact Or.inr ⟨trivial, hd.1, hd.2⟩
  · exact Or.inl rfl

theorem processPair_scan (tango : TangoService) (pair : Pair) (s : State P) :
    (processPair P tango pair s).1 = SensorData.default P ∨
      (P.isNull (colorToDepthOf P tango pair.rgbStamp pair.cloudStamp) = false ∧
        (processPair P tango pair s).1.scan =
          expectedScan P (colorToDepthOf P tango pair.rgbStamp pair.cloudStamp) pair.cloud ∧
        (processPair P tango pair s).1.scanInfo.maxPoints = pair.cloud.length / 10) := by
  unfold processPair
  split
  · exact Or.inl rfl
  · dsimp only
    by_cases hn : P.isNull (colorToDepthOf P tango pair.rgbStamp pair.cloudStamp) = true
    · left
      simp [hn, Raster.none, Raster.empty]
    · have hn' : P.isNull (colorToDepthOf P tango pair.rgbStamp pair.cloudStamp) = false := by
        simpa using hn
      have hs := (projectionLoop_scan s.model_
        (colorToDepthOf P tango pair.rgbStamp pair.cloudStamp) pair.cloud).1
      simp only [hn', Bool.not_false, if_true]
      exact ite_scan _ _ _ _ _ _ ⟨hs, rfl⟩

theorem captureImage_scan (tango : TangoService) (s : State P) :
    (captureImage P tango s).1 = SensorData.default P ∨
      (P.isNull (colorToDepthOf P tango s.tangoColorStamp_ s.cloudStamp_) = false ∧
        (captureImage P tango s).1.scan =
          expectedScan P (colorToDepthOf P tango s.tangoColorStamp_ s.cloudStamp_) s.cloud_ ∧
        (captureImage P tango s).1.scanInfo.maxPoints = s.cloud_.length / 10) := by
  by_cases hd : s.dataReady_ = 0
  · exact Or.inl (captureImage_timeout tango s hd).1
  · unfold captureImage
    rw [waitForPair_some s hd]
    exact processPair_scan tango _ _

/-- C11: the scan built by the projection loop, for every camera model, transform and
point cloud, is exactly the sequence, in index order, of the transformed points
whose index is a multiple of 10 and whose transformed depth is positive (so it is
empty when there is none); nothing in it depends on the raster.  A frame returned
by `captureImage` is either the empty `SensorData` or carries that scan, computed
from the buffered cloud with a non-null colour-to-depth transform. -/
theorem C11_scan_is_every_tenth_positive_point (tango : TangoService) (s : State P)
    (model_ : CameraModel P) (colorToDepth : P.Transform) (cloud : Cloud) :
    (projectionLoop P model_ colorToDepth cloud).scan = expectedScan P colorToDepth cloud ∧
    ((captureImage P tango s).1 = SensorData.default P ∨
      (P.isNull (colorToDepthOf P tango s.tangoColorStamp_ s.cloudStamp_) = false ∧
        (captureImage P tango s).1.scan =
          expectedScan P (colorToDepthOf P tango s.tangoColorStamp_ s.cloudStamp_) s.cloud_)) := by
  refine ⟨(projectionLoop_scan model_ colorToDepth cloud).1, ?_⟩
  rcases captureImage_scan tango s with h | ⟨h1, h2, _⟩
  · exact Or.inl h
  · exact Or.inr ⟨h1, h2⟩

/-- Points that write no raster cell are still in the scan.  In a cloud of 12 points the
point of index 0 falls outside the raster columns and the point of index 10 is
occluded (its cell ends at 500, the depth of index 11); the scan holds both. -/
theorem scan_keeps_points_without_a_cell :
    pixel_x (model100.scaled (1 / 8)) (transformed refPlatform Matrix34.identity ⟨1, 0, 2, 1⟩)
      = 12 ∧
    (projectionLoop refPlatform model100 Matrix34.identity
      ([⟨1, 0, 2, 1⟩] ++ List.replicate 9 ⟨0, 0, 1, 1⟩ ++
        [⟨0, 0, 3, 1⟩, ⟨0, 0, 1 / 2, 1⟩])).scan = [⟨1, 0, 2⟩, ⟨0, 0, 3⟩] ∧
    (projectionLoop refPlatform model100 Matrix34.identity
      ([⟨1, 0, 2, 1⟩] ++ List.replicate 9 ⟨0, 0, 1, 1⟩ ++
        [⟨0, 0, 3, 1⟩, ⟨0, 0, 1 / 2, 1⟩])).depth.cell 6 6 = 500 := by
  decide!

theorem projectFrom_append (colorToDepth : P.Transform) (depthModel : CameraModel P)
    (pre rest : Cloud) (i : Nat) (st : Projection) :
    projectFrom P colorToDepth depthModel i (pre ++ rest) st =
      projectFrom P colorToDepth depthModel (i + pre.length) rest
        (projectFrom P colorToDepth depthModel i pre st) := by
  induction pre generalizing i st with
  | nil => rfl
  | cons p more ih =>
    show projectFrom P colorToDepth depthModel (i + 1) (more ++ rest)
        (projectPoint P colorToDepth depthModel i p st) =
      projectFrom P colorToDepth depthModel (i + (more.length + 1)) rest
        (projectFrom P colorToDepth depthModel (i + 1) more
          (projectPoint P colorToDepth depthModel i p st))
    rw [ih, Nat.add_assoc, Nat.add_comm 1]

/-- The write index into the scan buffer is in bounds: when the loop reaches the
element after any prefix of the cloud, `oi` is below the buffer size, which is
the number of points of the cloud. -/
theorem scan_write_in_bounds (model_ : CameraModel P) (colorToDepth : P.Transform)
    (pre : Cloud) (p : Vec4f) (post : Cloud) :
    (projectFrom P colorToDepth (model_.scaled (1 / 8)) 0 pre
        ⟨Raster.zeros (model_.imageHeight / 8) (model_.imageWidth / 8),
          List.replicate (pre ++ p :: post).length ⟨0, 0, 0⟩, 0, 0⟩).oi <
      (projectFrom P colorToDepth (model_.scaled (1 / 8)) 0 pre
        ⟨Raster.zeros (model_.imageHeight / 8) (model_.imageWidth / 8),
          List.replicate (pre ++ p :: post).length ⟨0, 0, 0⟩, 0, 0⟩).scanData.length ∧
    (projectFrom P colorToDepth (model_.scaled (1 / 8)) 0 pre
        ⟨Raster.zeros (model_.imageHeight / 8) (model_.imageWidth / 8),
          List.replicate (pre ++ p :: post).length ⟨0, 0, 0⟩, 0, 0⟩).scanData.length =
      (pre ++ p :: post).length := by
  obtain ⟨h1, _, _, h4⟩ := projectFrom_scan colorToDepth (model_.scaled (1 / 8)) pre 0
    ⟨Raster.zeros (model_.imageHeight / 8) (model_.imageWidth / 8),
      List.replicate (pre ++ p :: post).length ⟨0, 0, 0⟩, 0, 0⟩ (by simp) (le_refl _)
  simp only [List.length_replicate, List.length_append, List.length_cons] at h1 h4 ⊢
  omega

theorem expectedScanFrom_length (colorToDepth : P.Transform) (i : Nat) (cloud : Cloud) :
    (expectedScanFrom P colorToDepth i cloud).length + (i + 9) / 10 ≤
      (i + cloud.length + 9) / 10 := by
  induction cloud generalizing i with
  | nil => simp [expectedScanFrom]
  | cons p rest ih =>
    rw [expectedScanFrom_cons]
    have := ih (i + 1)
    simp only [List.length_cons]
    split_ifs with h
    · simp only [List.length_cons]
      have := h.2
      omega
    · omega

/-- The scan has at most one point more than `n / 10`: at most `(n + 9) / 10`. -/
theorem expectedScan_length (colorToDepth : P.Transform) (cloud : Cloud) :
    (expectedScan P colorToDepth cloud).length ≤ (cloud.length + 9) / 10 := by
  have := expectedScanFrom_length colorToDepth 0 cloud
  unfold expectedScan
  omega

/-- C14: the scan can hold more points than the maximum declared beside it.  For a
pair whose cloud has 1 point (of positive depth) `captureImage` returns a scan of
1 point with `LaserScanInfo` maximum 1 / 10 = 0; for 15 points, a scan of 2 points
with maximum 1. -/
theorem C14_scan_exceeds_declared_maximum :
    (pairReadyWith 1).cloud_.length = 1 ∧
    (captureImage refPlatform goodService (pairReadyWith 1)).1.scan.length = 1 ∧
    (captureImage refPlatform goodService (pairReadyWith 1)).1.scanInfo.maxPoints = 0 ∧
    (pairReadyWith 15).cloud_.length = 15 ∧
    (captureImage refPlatform goodService (pairReadyWith 15)).1.scan.length = 2 ∧
    (captureImage refPlatform goodService (pairReadyWith 15)).1.scanInfo.maxPoints = 1 := by
  decide!

/-! ### Callback routers -/

theorem conversionOf_ne_none_iff (type : Int) :
    conversionOf type ≠ none ↔
      (type = TANGO_HAL_PIXEL_FORMAT_RGBA_8888 ∨ type = TANGO_HAL_PIXEL_FORMAT_YV12 ∨
        type = TANGO_HAL_PIXEL_FORMAT_YCrCb_420_SP) := by
  unfold conversionOf
  constructor
  · intro h
    by_contra hne
    simp only [not_or] at hne
    simp [hne.1, hne.2.1, hne.2.2] at h
  · rintro (h | h | h) <;> split_ifs <;> simp_all

theorem castFormat_supported (format : Int) (h : conversionOf format ≠ none) :
    castFormat format = format := by
  rcases (conversionOf_ne_none_iff format).mp h with h | h | h <;> rw [h] <;> decide

theorem routedImage_unsupported (color : TangoImageBuffer)
    (h : conversionOf color.format = none) : routedImage color = Image.none := by
  have hn : ¬ (color.format = TANGO_HAL_PIXEL_FORMAT_RGBA_8888 ∨
      color.format = TANGO_HAL_PIXEL_FORMAT_YV12 ∨
      color.format = TANGO_HAL_PIXEL_FORMAT_YCrCb_420_SP) :=
    fun hh => (conversionOf_ne_none_iff _).mpr hh h
  simp only [not_or] at hn
  simp [routedImage, hn.1, hn.2.1, hn.2.2]

theorem routedImage_supported (color : TangoImageBuffer)
    (h : (routedImage color).empty = false) : conversionOf color.format ≠ none := by
  intro hnone
  rw [routedImage_unsupported color hnone, Image.none_empty] at h
  exact absurd h (by decide)

theorem rgbReceived_colorTagged (img : Image) (type : Int) (ts : ℚ) (s : State P)
    (ht : conversionOf type ≠ none) (h : s.colorTagged) :
    (rgbReceived img type ts s).colorTagged := by
  simp only [rgbReceived]
  split_ifs <;> first | exact h | exact fun _ => ht

theorem cloudReceived_colorTagged (cloud : Cloud) (ts : ℚ) (s : State P)
    (h : s.colorTagged) : (cloudReceived cloud ts s).colorTagged := by
  simp only [cloudReceived]
  split_ifs <;> exact h

theorem slotsReset_colorTagged (s : State P) (h : s.slotsReset) : s.colorTagged := by
  intro he
  rw [h.2.2.1, Image.none_empty] at he
  exact absurd he (by decide)

theorem onFrameAvailableRouter_colorTagged (color : TangoImageBuffer) (s : State P)
    (h : s.colorTagged) : (onFrameAvailableRouter color s).colorTagged := by
  unfold onFrameAvailableRouter
  dsimp only
  by_cases he : (routedImage color).empty = true
  · simp only [he, Bool.not_true, Bool.false_eq_true, if_false]; exact h
  · have he' : (routedImage color).empty = false := by simpa using he
    have hs := routedImage_supported color he'
    simp only [he', Bool.not_false, if_true]
    rw [castFormat_supported _ hs]
    exact rgbReceived_colorTagged _ _ _ _ hs h

theorem apply_colorTagged (a : RoutedAction) (s : State P) (h : s.colorTagged) :
    (a.apply P s).colorTagged := by
  cases a with
  | pointCloud pc => exact cloudReceived_colorTagged _ _ _ h
  | frame color => exact onFrameAvailableRouter_colorTagged color s h
  | captureImage tango => exact slotsReset_colorTagged _ (captureImage_inv tango s).1
  | mainLoop tango =>
    show (mainLoop P tango s).colorTagged
    by_cases hc : s.tango_config_ = true
    · have hm := (mainLoop_slots tango s).2.1
      rw [if_pos hc, (captureImage_inv tango s).1.2.2.1] at hm
      intro he
      rw [hm, Image.none_empty] at he
      exact absurd he (by decide)
    · rw [mainLoop_without_config tango s (by simpa using hc)]
      exact h

theorem runRouted_colorTagged (acts : List RoutedAction) (s : State P) (h : s.colorTagged) :
    (runRouted P acts s).colorTagged := by
  induction acts generalizing s with
  | nil => exact h
  | cons a rest ih => exact ih _ (apply_colorTagged a s h)

/-- C13: a colour frame whose format tag is none of the three supported encodings is
dropped by `onFrameAvailableRouter`, the whole state (slots, timestamps, colour
type, ready count) being unchanged.  So in every session fed through the routers
from empty slots a colour frame held in the slot has a supported tag, and when the
wait hands out a colour frame, `captureImage` finds a conversion for its tag: the
branch for unsupported formats is not taken. -/
theorem C13_unsupported_frame_dropped_at_ingestion (color : TangoImageBuffer) (s : State P)
    (acts : List RoutedAction) :
    (conversionOf color.format = none → onFrameAvailableRouter color s = s) ∧
    (runRouted P acts s.emptied).colorTagged ∧
    (∀ pair, (waitForPair (runRouted P acts s.emptied)).1 = some pair →
      pair.tangoImage.empty = false → conversionOf pair.tangoColorType ≠ none) := by
  have htag : (runRouted P acts s.emptied).colorTagged :=
    runRouted_colorTagged acts _ (fun he => absurd he (by simp [State.emptied, Image.none_empty]))
  refine ⟨?_, htag, ?_⟩
  · intro h
    simp [onFrameAvailableRouter, routedImage_unsupported color h, Image.none_empty]
  · intro pair hp he
    by_cases hd : (runRouted P acts s.emptied).dataReady_ = 0
    · rw [waitForPair_none _ hd] at hp
      exact absurd hp (by simp)
    · rw [waitForPair_some _ hd] at hp
      cases hp
      exact htag he

theorem C13_unsupported_frame_dropped_at_ingestion_witness :
    conversionOf unsupportedFrame.format = none ∧
    (onFrameAvailableRouter unsupportedFrame (cloudReceived sampleCloud 1 startedCamera)).tangoColor_
      = Image.none ∧
    (onFrameAvailableRouter
      { unsupportedFrame with format := TANGO_HAL_PIXEL_FORMAT_RGBA_8888 }
      (cloudReceived sampleCloud 1 startedCamera)).dataReady_ = 1 :=
  ⟨by decide,
    by
      rw [(C13_unsupported_frame_dropped_at_ingestion unsupportedFrame
        (cloudReceived sampleCloud 1 startedCamera) []).1 (by decide)]
      decide!,
    by decide!⟩

/-! ### Pose magnitude -/

/-- The pose callback posts no `PoseEvent` for a pose whose squared norm is 100000 or
more, whatever the state. -/
theorem poseReceived_over_threshold (opticalRotation pose : P.Transform) (s : State P)
    (h : 100000 ≤ P.getNormSquared pose) : poseReceived opticalRotation pose s = s := by
  unfold poseReceived
  have : ¬ P.getNormSquared pose < 100000 := not_lt.mpr h
  simp [this]

/-- C12: `captureImage` does not test the magnitude of the absolute pose.  With the
device reported 1000 m from the start of service (squared norm 1000000, above
100000) and a pair ready, `captureImage` returns a frame with a non-null pose and
`mainLoop` posts a pose-bearing `OdometryEvent` (the first of the session, variance
9999); `poseReceived`, given the same pose, posts nothing. -/
theorem C12_far_absolute_pose_still_emitted :
    refPlatform.getNormSquared
      (getPoseAtTimestamp refPlatform farDeviceService pairReady.tangoColorStamp_) = 1000000 ∧
    refPlatform.isNull
      (getPoseAtTimestamp refPlatform farDeviceService pairReady.tangoColorStamp_) = false ∧
    refPlatform.isNull (captureImage refPlatform farDeviceService pairReady).1.groundTruth
      = false ∧
    refPlatform.getNormSquared (captureImage refPlatform farDeviceService pairReady).1.groundTruth
      = 1000000 ∧
    poseVariances (mainLoop refPlatform farDeviceService pairReady).posted = [(9999, 9999)] ∧
    (mainLoop refPlatform farDeviceService pairReady).posted.any Event.isLost = false ∧
    (poseReceived opticalRotationTango
      (getPoseAtTimestamp refPlatform farDeviceService pairReady.tangoColorStamp_)
      pairReady).posted.length = 0 := by
  decide!

end rtabmap
